import Mathlib

/-!
# Queue ticketing: the controller and the dashboard derivations

A shallow embedding of `backend/models/Queue.js`,
`backend/controllers/queueController.js` and the queue logic of
`frontend/src/components/QueueSystemV2.jsx`.

* Mongo `ObjectId`s are natural numbers; `ticket.userId.toString() !== req.user.id`
  is disequality of the two ids. `req.params.id` is a string; the cast of a string
  to an `ObjectId` is a parameter `castObjectId` (`none` where the cast throws).
* `Date`s are millisecond timestamps, JS `Number`s are integers.
* The collection is the list of its documents; a handler maps the store before
  the call to its response and the store after the call.
* The fields of a request body are strings or absent (numbers for
  `estimatedTime` and `priority`); the `Date` constructor on strings is a
  parameter `parseDate` (`none` for an invalid date).
* The clock is an input of `issueTicket`; the `_id` of a new record comes from
  `newObjectId`.
* A dashboard action maps the local state and the outcome of its request
  (`none` for a rejected promise) to the local state after it.
-/

/-! ## Data model (`models/Queue.js`) -/

/-- Mongo object identifier. -/
abbrev ObjectId := Nat

/-- Schema path `type`: `enum: ['regular', 'priority']`. -/
inductive TicketType where
  | regular
  | priority
  deriving DecidableEq, Repr

/-- Schema path `status`: `enum: ['waiting', 'serving', 'completed', 'no-show']`. -/
inductive Status where
  | waiting
  | serving
  | completed
  | noShow
  deriving DecidableEq, Repr

/-- A document of `queueSchema`. The bookkeeping paths `createdAt` and `updatedAt`
that `timestamps: true` adds are left out; `issuedAt` is always present
(`default: Date.now`). -/
structure Ticket where
  _id : ObjectId
  userId : ObjectId
  number : String
  type : TicketType
  issuedAt : Nat
  status : Status
  estimatedTime : Int
  priority : Int
  servedAt : Option Nat
  completedAt : Option Nat
  noShowAt : Option Nat
  deriving DecidableEq, Repr

/-- JS truthiness of a value that is `null`/`undefined` or a string (a field of
`req.body`, the state `activeTicket`): absent and the empty string are falsy. -/
def truthy : Option String → Bool
  | none => false
  | some s => s ≠ ""

namespace QueueSystemV2

/-! ## Dashboard derivations (`QueueSystemV2.jsx`) -/

/-- One entry of `serviceSettings`; only `avgTime` takes part in the logic. -/
structure ServiceSetting where
  avgTime : Int

/-- The state `serviceSettings`. -/
structure ServiceSettings where
  regular : ServiceSetting
  priority : ServiceSetting

/-- The initial (and only) value of `serviceSettings`:
`{ regular: { avgTime: 8 }, priority: { avgTime: 5 } }`. -/
def serviceSettings : ServiceSettings :=
  { regular := { avgTime := 8 }, priority := { avgTime := 5 } }

/-- Source `calculateAdvancedWaitTime` (lines 111-122), over the state `tickets`. -/
def calculateAdvancedWaitTime (tickets : List Ticket) (ticketType : TicketType) : Int :=
  let currentQueue := tickets.filter (fun t => t.status = Status.waiting)
  if ticketType = TicketType.priority then
    let priorityAhead := (currentQueue.filter (fun t => t.type = TicketType.priority)).length
    (priorityAhead : Int) * serviceSettings.priority.avgTime
  else
    let priorityAhead := (currentQueue.filter (fun t => t.type = TicketType.priority)).length
    let regularAhead := (currentQueue.filter (fun t => t.type = TicketType.regular)).length
    ((priorityAhead : Int) * serviceSettings.priority.avgTime)
      + ((regularAhead : Int) * serviceSettings.regular.avgTime)

/-- The comparator passed to `sort` in `waitingTickets` (lines 215-218):
`b.priority - a.priority` when the weights differ, else the difference of the
issue dates. -/
def compareWaiting (a b : Ticket) : Int :=
  if a.priority ≠ b.priority then b.priority - a.priority
  else (a.issuedAt : Int) - (b.issuedAt : Int)

/-- The engine's `Array.prototype.sort(cmp)`, a stable sort: an element moves
behind another only where `cmp` is positive. -/
def sort {α : Type} (cmp : α → α → Int) (l : List α) : List α :=
  l.insertionSort (fun a b => cmp a b ≤ 0)

/-- The derived list `waitingTickets` (lines 215-218); the dashboard shows its
first element as "Next in Queue". -/
def waitingTickets (tickets : List Ticket) : List Ticket :=
  sort compareWaiting (tickets.filter (fun t => t.status = Status.waiting))

/-- The constant `nextTicket` of `callNext` (lines 125-128): the ticket whose id
the handler sends to the API; `none` when `callNext` returns at line 125 or the
test of line 130 fails. -/
def callNext.nextTicket (activeTicket : Option String) (tickets : List Ticket) :
    Option Ticket :=
  if truthy activeTicket then none
  else
    let priorityTicket :=
      tickets.find? (fun t => t.type = TicketType.priority ∧ t.status = Status.waiting)
    match priorityTicket with
    | some t => some t
    | none => tickets.find? (fun t => t.type = TicketType.regular ∧ t.status = Status.waiting)

end QueueSystemV2

namespace QueueController

/-! ## Request handlers (`queueController.js`) -/

/-- The collection behind the model `Queue`. -/
abbrev Store := List Ticket

/-- What a handler passes to `res.json`. -/
inductive ResBody where
  | message (text : String)
  | errorMessage
  | ticket (t : Ticket)
  | tickets (l : List Ticket)
  | counters (regular : Int) (priority : Int)
  deriving DecidableEq, Repr

/-- An HTTP response: status code (200 when the handler sets none) and body.
`errorMessage` stands for `{ message: error.message }` of a `catch` block, whose
text is the library's. -/
structure Response where
  status : Nat
  body : ResBody
  deriving DecidableEq, Repr

/-- The fields `updateTicket` reads from `req.body`; an absent field is `none`. -/
structure UpdateBody where
  status : Option String
  servedAt : Option String
  completedAt : Option String
  noShowAt : Option String
  deriving DecidableEq, Repr

/-- Cast of a string to the enum of the schema path `status`. -/
def Status.ofString? (s : String) : Option Status :=
  if s = "waiting" then some Status.waiting
  else if s = "serving" then some Status.serving
  else if s = "completed" then some Status.completed
  else if s = "no-show" then some Status.noShow
  else none

/-- The query `Queue.findById(id)` on the string `id` of the route. The outer
`none` is the `CastError` the query throws when `id` does not cast to an
`ObjectId`; `some none` is the result `null`. -/
def findById (castObjectId : String → Option ObjectId) (store : Store) (id : String) :
    Option (Option Ticket) :=
  match castObjectId id with
  | none => none
  | some oid => some (store.find? (fun t => t._id = oid))

/-- The call `doc.save()` on a loaded document: the stored record with the `_id`
of `doc` is overwritten by `doc`. -/
def save (doc : Ticket) : Store → Store
  | [] => []
  | t :: rest => if t._id = doc._id then doc :: rest else t :: save doc rest

/-- Line 37, `ticket.status = status || ticket.status`, with the enum validation
that `save` runs on the path: `none` when the value is outside the enum. -/
def assignStatus (status : Option String) (ticket : Ticket) : Option Status :=
  if truthy status then status.bind Status.ofString? else some ticket.status

/-- Lines 38-40, `if (d) ticket.p = new Date(d)`, with the cast that `save`
checks: `none` when `new Date(d)` is an invalid date. `parseDate` is the
engine's `Date` constructor on strings. -/
def assignDate (parseDate : String → Option Nat) (d : Option String)
    (prior : Option Nat) : Option (Option Nat) :=
  if truthy d then (d.bind parseDate).map some else some prior

/-- Lines 37-42 of `updateTicket`: the document that `ticket.save()` persists,
`none` when `save` rejects. -/
def applyUpdate (parseDate : String → Option Nat) (ticket : Ticket) (body : UpdateBody) :
    Option Ticket :=
  match assignStatus body.status ticket, assignDate parseDate body.servedAt ticket.servedAt,
    assignDate parseDate body.completedAt ticket.completedAt,
    assignDate parseDate body.noShowAt ticket.noShowAt with
  | some status, some servedAt, some completedAt, some noShowAt =>
    some { ticket with
      status := status, servedAt := servedAt, completedAt := completedAt, noShowAt := noShowAt }
  | _, _, _, _ => none

/-- Every value the body supplies passes the checks of `save`: a truthy `status`
is in the enum of the schema, a truthy date string is a valid date. -/
def ValidBody (parseDate : String → Option Nat) (body : UpdateBody) : Prop :=
  (∀ s, body.status = some s → s ≠ "" → (Status.ofString? s).isSome)
  ∧ ∀ d ∈ [body.servedAt, body.completedAt, body.noShowAt],
      ∀ s, d = some s → s ≠ "" → (parseDate s).isSome

/-- How an update treats one date path: a supplied (truthy) string sets the path
to the date it denotes, anything else leaves the prior value. -/
def DateUpdated (parseDate : String → Option Nat) (supplied : Option String)
    (prior new : Option Nat) : Prop :=
  (∀ s, supplied = some s → s ≠ "" → ∃ d, parseDate s = some d ∧ new = some d)
  ∧ (truthy supplied = false → new = prior)

/-- Source `updateTicket` (lines 28-47): `reqUserId` is `req.user.id`,
`reqParamsId` is `req.params.id`. Returns the response and the store after
the call. An error thrown inside `try` (the `CastError` of `findById`, the
rejection of `save`) is answered 500 by the `catch` of line 44. -/
def updateTicket (parseDate : String → Option Nat) (castObjectId : String → Option ObjectId)
    (store : Store) (reqUserId : ObjectId) (reqParamsId : String) (body : UpdateBody) :
    Response × Store :=
  match findById castObjectId store reqParamsId with
  | none => ({ status := 500, body := ResBody.errorMessage }, store)
  | some none => ({ status := 404, body := ResBody.message "Ticket not found" }, store)
  | some (some ticket) =>
    if ticket.userId ≠ reqUserId then
      ({ status := 403, body := ResBody.message "Not authorized to update this ticket" }, store)
    else
      match applyUpdate parseDate ticket body with
      | some updatedTicket =>
        ({ status := 200, body := ResBody.ticket updatedTicket }, save updatedTicket store)
      | none => ({ status := 500, body := ResBody.errorMessage }, store)

/-- Source `deleteTicket` (lines 49-61); the `CastError` of `findById` is answered
500 by the `catch` of line 58. -/
def deleteTicket (castObjectId : String → Option ObjectId) (store : Store)
    (reqUserId : ObjectId) (reqParamsId : String) : Response × Store :=
  match findById castObjectId store reqParamsId with
  | none => ({ status := 500, body := ResBody.errorMessage }, store)
  | some none => ({ status := 404, body := ResBody.message "Ticket not found" }, store)
  | some (some ticket) =>
    if ticket.userId ≠ reqUserId then
      ({ status := 403, body := ResBody.message "Not authorized to delete this ticket" }, store)
    else
      ({ status := 200, body := ResBody.message "Ticket deleted" },
        store.eraseP (fun t => castObjectId reqParamsId = some t._id))

/-- Source `getCounters` (lines 63-87); `today` is the constant `today` after
`today.setHours(0, 0, 0, 0)`, the start of the current local day. -/
def getCounters (store : Store) (reqUserId : ObjectId) (today : Nat) : Response :=
  let regularCount := store.countP (fun t =>
    t.userId = reqUserId ∧ t.type = TicketType.regular ∧ today ≤ t.issuedAt)
  let priorityCount := store.countP (fun t =>
    t.userId = reqUserId ∧ t.type = TicketType.priority ∧ today ≤ t.issuedAt)
  { status := 200, body := ResBody.counters ((regularCount : Int) + 1001) ((priorityCount : Int) + 1) }

/-- Source `resetQueue` (lines 89-96): `Queue.deleteMany({ userId: req.user.id })`. -/
def resetQueue (store : Store) (reqUserId : ObjectId) : Response × Store :=
  ({ status := 200, body := ResBody.message "Queue reset successfully" },
    store.filter (fun t => t.userId ≠ reqUserId))

/-- The query `Queue.find({ userId }).sort({ issuedAt: 1 })` with its response
(source `getTickets`, lines 3-10); records with equal `issuedAt` keep the order
of the collection. -/
def getTickets (store : Store) (reqUserId : ObjectId) : Response :=
  { status := 200,
    body := ResBody.tickets
      ((store.filter (fun t => t.userId = reqUserId)).insertionSort
        (fun a b => a.issuedAt ≤ b.issuedAt)) }

/-- The fields `issueTicket` reads from `req.body`; an absent field is `none`.
`number` is the value after the cast to `String`. -/
structure IssueBody where
  number : Option String
  type : Option String
  estimatedTime : Option Int
  priority : Option Int
  deriving DecidableEq, Repr

/-- Cast of a string to the enum of the schema path `type`. -/
def TicketType.ofString? (s : String) : Option TicketType :=
  if s = "regular" then some TicketType.regular
  else if s = "priority" then some TicketType.priority
  else none

/-- The string of a ticket type. -/
def TicketType.toString : TicketType → String
  | TicketType.regular => "regular"
  | TicketType.priority => "priority"

/-- The string of a status. -/
def Status.toString : Status → String
  | Status.waiting => "waiting"
  | Status.serving => "serving"
  | Status.completed => "completed"
  | Status.noShow => "no-show"

/-- The call `Queue.create({ userId, number, type, estimatedTime, priority })` under
`queueSchema`: `number`, `type` and `estimatedTime` are required (an empty
string does not satisfy `required`), `type` has to be in its enum; `issuedAt`
defaults to `Date.now` (`now`), `status` to waiting, the three dates stay
unset. `newId` is the `_id` of the new document. `none` when validation rejects. -/
def create (userId newId : ObjectId) (now : Nat) (number type : Option String)
    (estimatedTime : Option Int) (priority : Int) : Option Ticket :=
  match number, type.bind TicketType.ofString?, estimatedTime with
  | some n, some ty, some e =>
    if n = "" then none
    else some
      { _id := newId, userId := userId, number := n, type := ty, issuedAt := now,
        status := Status.waiting, estimatedTime := e, priority := priority,
        servedAt := none, completedAt := none, noShowAt := none }
  | _, _, _ => none

/-- Modelled from the spec: the `_id` a new document gets, which the driver and
not the repository computes ("opaque unique identifier, assigned by the store
on creation"): an id above every id of the collection. -/
def newObjectId (store : Store) : ObjectId :=
  store.foldr (fun t m => max (t._id + 1) m) 1

/-- The expression `priority || (type === 'priority' ? 1 : 0)` of line 20: an absent
weight and the weight 0 are falsy. -/
def issuePriority (priority : Option Int) (type : Option String) : Int :=
  match priority with
  | some p => if p ≠ 0 then p else (if type = some "priority" then 1 else 0)
  | none => if type = some "priority" then 1 else 0

/-- Source `issueTicket` (lines 12-26). -/
def issueTicket (store : Store) (reqUserId : ObjectId) (now : Nat) (body : IssueBody) :
    Response × Store :=
  match create reqUserId (newObjectId store) now body.number body.type body.estimatedTime
      (issuePriority body.priority body.type) with
  | some ticket => ({ status := 201, body := ResBody.ticket ticket }, store ++ [ticket])
  | none => ({ status := 500, body := ResBody.errorMessage }, store)

/-- A request that passes the schema: `number` present and not empty, `type` in
the enum, `estimatedTime` present. -/
def ValidIssue (body : IssueBody) : Prop :=
  (∃ n, body.number = some n ∧ n ≠ "")
  ∧ (∃ s ty, body.type = some s ∧ TicketType.ofString? s = some ty)
  ∧ (∃ e, body.estimatedTime = some e)

end QueueController

namespace QueueSystemV2

open QueueController

/-! ## Dashboard state and actions (`QueueSystemV2.jsx`) -/

/-- The state `ticketCounter`. -/
structure TicketCounter where
  regular : Int
  priority : Int
  deriving DecidableEq, Repr

/-- The queue state of the component: `tickets`, `ticketCounter`, `activeTicket`
(`null` or the number of the ticket being served) and `selectedType`. -/
structure Dashboard where
  tickets : List Ticket
  ticketCounter : TicketCounter
  activeTicket : Option String
  selectedType : TicketType
  deriving DecidableEq, Repr

/-- What an `await axiosInstance...` yields: the promise resolves with
`response.data` when the status is 2xx and is rejected otherwise; `none` is a
rejected request. -/
def axios (res : Response) : Option ResBody :=
  if 200 ≤ res.status ∧ res.status < 300 then some res.body else none

/-- The method `padStart(2, '0')` on a counter string. -/
def padStart2 (s : String) : String :=
  if s.length < 2 then String.mk (List.replicate (2 - s.length) '0') ++ s else s

/-- The object `newTicketData` of `issueTicket` (lines 87-94). -/
def issueTicket.newTicketData (st : Dashboard) : IssueBody :=
  let counter :=
    if st.selectedType = TicketType.priority then st.ticketCounter.priority
    else st.ticketCounter.regular
  { number := some (if st.selectedType = TicketType.priority then "P" ++ padStart2 (toString counter)
      else toString counter),
    type := some (TicketType.toString st.selectedType),
    estimatedTime := some (calculateAdvancedWaitTime st.tickets st.selectedType),
    priority := some (if st.selectedType = TicketType.priority then 1 else 0) }

/-- Source `issueTicket` of the dashboard (lines 86-109); `api` is the outcome of
the `POST`, whose data is the created record (controller line 22). -/
def issueTicket (st : Dashboard) (api : Option ResBody) : Dashboard :=
  match api with
  | some (ResBody.ticket data) =>
    { st with
      tickets := st.tickets ++ [data],
      ticketCounter :=
        if st.selectedType = TicketType.priority then
          { st.ticketCounter with priority := st.ticketCounter.priority + 1 }
        else { st.ticketCounter with regular := st.ticketCounter.regular + 1 } }
  | _ => st

/-- The body of the `PUT` of `callNext` (lines 132-135); `date` is the JSON text of
`new Date()`. -/
def callNext.body (date : String) : UpdateBody :=
  { status := some "serving", servedAt := some date, completedAt := none, noShowAt := none }

/-- Source `callNext` (lines 124-149); `api` is the outcome of the `PUT`, `now` the
`new Date()` of line 141. -/
def callNext (st : Dashboard) (now : Nat) (api : Option ResBody) : Dashboard :=
  match callNext.nextTicket st.activeTicket st.tickets with
  | none => st
  | some nextTicket =>
    match api with
    | none => st
    | some _ =>
      { st with
        tickets := st.tickets.map (fun t =>
          if t._id = nextTicket._id then { t with status := Status.serving, servedAt := some now }
          else t),
        activeTicket := some nextTicket.number }

/-- The constant `ticket` of `completeService` and of `noShow` (lines 152-154 and
177-179): the ticket whose id the handler sends to the API. -/
def completeService.ticket (st : Dashboard) : Option Ticket :=
  if truthy st.activeTicket then st.tickets.find? (fun t => some t.number = st.activeTicket)
  else none

/-- The body of the `PUT` of `completeService` (lines 157-160). -/
def completeService.body (date : String) : UpdateBody :=
  { status := some "completed", servedAt := none, completedAt := some date, noShowAt := none }

/-- Source `completeService` (lines 151-174). -/
def completeService (st : Dashboard) (now : Nat) (api : Option ResBody) : Dashboard :=
  match completeService.ticket st with
  | none => st
  | some _ =>
    match api with
    | none => st
    | some _ =>
      { st with
        tickets := st.tickets.map (fun t =>
          if some t.number = st.activeTicket then
            { t with status := Status.completed, completedAt := some now }
          else t),
        activeTicket := none }

/-- The body of the `PUT` of `noShow` (lines 182-185). -/
def noShow.body (date : String) : UpdateBody :=
  { status := some "no-show", servedAt := none, completedAt := none, noShowAt := some date }

/-- Source `noShow` (lines 176-199); its constant `ticket` is computed as in
`completeService`. -/
def noShow (st : Dashboard) (now : Nat) (api : Option ResBody) : Dashboard :=
  match completeService.ticket st with
  | none => st
  | some _ =>
    match api with
    | none => st
    | some _ =>
      { st with
        tickets := st.tickets.map (fun t =>
          if some t.number = st.activeTicket then
            { t with status := Status.noShow, noShowAt := some now }
          else t),
        activeTicket := none }

/-- Source `resetSystem` (lines 201-213). -/
def resetSystem (st : Dashboard) (api : Option ResBody) : Dashboard :=
  match api with
  | none => st
  | some _ =>
    { st with
      tickets := [], activeTicket := none, ticketCounter := { regular := 1001, priority := 1 } }

/-- The stores the dashboard's actions reach from the empty collection: a `POST`
of `issueTicket`, a `PUT` with the body of `callNext`, `completeService` or
`noShow` (carrying a valid date), the `DELETE` of `resetSystem`. The id and the
user of a request are left free. -/
inductive Reachable (parseDate : String → Option Nat) (castObjectId : String → Option ObjectId) :
    Store → Prop where
  | empty : Reachable parseDate castObjectId []
  | issue (store : Store) (user : ObjectId) (now : Nat) (body : IssueBody) :
      Reachable parseDate castObjectId store →
      Reachable parseDate castObjectId (QueueController.issueTicket store user now body).2
  | callNext (store : Store) (user : ObjectId) (id : String) (date : String) :
      Reachable parseDate castObjectId store → date ≠ "" → (parseDate date).isSome →
      Reachable parseDate castObjectId
        (updateTicket parseDate castObjectId store user id (callNext.body date)).2
  | completeService (store : Store) (user : ObjectId) (id : String) (date : String) :
      Reachable parseDate castObjectId store → date ≠ "" → (parseDate date).isSome →
      Reachable parseDate castObjectId
        (updateTicket parseDate castObjectId store user id (completeService.body date)).2
  | noShow (store : Store) (user : ObjectId) (id : String) (date : String) :
      Reachable parseDate castObjectId store → date ≠ "" → (parseDate date).isSome →
      Reachable parseDate castObjectId
        (updateTicket parseDate castObjectId store user id (noShow.body date)).2
  | reset (store : Store) (user : ObjectId) :
      Reachable parseDate castObjectId store →
      Reachable parseDate castObjectId (resetQueue store user).2

/-- The stores the API reaches from the empty collection, whatever the requests:
any `POST`, any `PUT` and `DELETE` of a ticket, any reset. -/
inductive ApiReachable (parseDate : String → Option Nat)
    (castObjectId : String → Option ObjectId) : Store → Prop where
  | empty : ApiReachable parseDate castObjectId []
  | issue (store : Store) (user : ObjectId) (now : Nat) (body : IssueBody) :
      ApiReachable parseDate castObjectId store →
      ApiReachable parseDate castObjectId (QueueController.issueTicket store user now body).2
  | update (store : Store) (user : ObjectId) (id : String) (body : UpdateBody) :
      ApiReachable parseDate castObjectId store →
      ApiReachable parseDate castObjectId
        (updateTicket parseDate castObjectId store user id body).2
  | delete (store : Store) (user : ObjectId) (id : String) :
      ApiReachable parseDate castObjectId store →
      ApiReachable parseDate castObjectId (deleteTicket castObjectId store user id).2
  | reset (store : Store) (user : ObjectId) :
      ApiReachable parseDate castObjectId store →
      ApiReachable parseDate castObjectId (resetQueue store user).2

end QueueSystemV2

/-! ## Sample data -/

/-- The weight `issueTicket` stores when the request carries none
(`type === 'priority' ? 1 : 0`, line 20 of the controller, line 93 of the dashboard). -/
def defaultPriority (type : TicketType) : Int :=
  if type = TicketType.priority then 1 else 0

/-- A ticket of owner `owner` with the weight `issueTicket` of the dashboard sends
for its class, still waiting. -/
def sampleTicket (id owner : ObjectId) (number : String) (type : TicketType) (issuedAt : Nat) :
    Ticket :=
  { _id := id, userId := owner, number := number, type := type, issuedAt := issuedAt,
    status := Status.waiting, estimatedTime := 0,
    priority := defaultPriority type,
    servedAt := none, completedAt := none, noShowAt := none }

/-- Scenario 1 of the specification: waiting `[priority@1, priority@2, regular@3]`. -/
def scenarioWaiting : List Ticket :=
  [sampleTicket 1 7 "P01" TicketType.priority 1, sampleTicket 2 7 "P02" TicketType.priority 2,
    sampleTicket 3 7 "1001" TicketType.regular 3]

/-- Two waiting tickets of one owner: a regular ticket issued at 10 with the
weight 2 (a `POST` whose body carries `priority: 2`), then a priority ticket
issued at 20 with the default weight 1. -/
def weightedTickets : List Ticket :=
  [{ sampleTicket 1 7 "1001" TicketType.regular 10 with priority := 2 },
    sampleTicket 2 7 "P01" TicketType.priority 20]

/-- The order the specification gives the waiting list: no priority ticket
behind a regular one, and within a class no ticket behind one issued later. -/
def ClassThenArrival (a b : Ticket) : Prop :=
  ¬ (a.type = TicketType.regular ∧ b.type = TicketType.priority)
    ∧ (a.type = b.type → a.issuedAt ≤ b.issuedAt)

/-- The order of the comparator: no ticket behind one of lower weight, and
among equal weights no ticket behind one issued later. -/
def WeightThenArrival (a b : Ticket) : Prop :=
  b.priority ≤ a.priority ∧ (a.priority = b.priority → a.issuedAt ≤ b.issuedAt)

instance : DecidableRel ClassThenArrival := fun a b => by
  unfold ClassThenArrival; infer_instance

instance : DecidableRel WeightThenArrival := fun a b => by
  unfold WeightThenArrival; infer_instance

/-- A store of two owners: owner 7 holds the tickets 1 to 5, owner 8 the
tickets 6 and 7. -/
def twoOwnerStore : List Ticket :=
  [sampleTicket 1 7 "1001" TicketType.regular 100, sampleTicket 6 8 "1001" TicketType.regular 110,
    sampleTicket 2 7 "1002" TicketType.regular 120, sampleTicket 3 7 "1003" TicketType.regular 130,
    sampleTicket 4 7 "P01" TicketType.priority 140, sampleTicket 7 8 "P01" TicketType.priority 150,
    sampleTicket 5 7 "P02" TicketType.priority 160]

/-- A store for the counters: with the day starting at 100, owner 7 has issued
three regular tickets today, one regular and one priority ticket the day
before; owner 8 has issued a priority ticket today. -/
def countersStore : List Ticket :=
  [sampleTicket 1 7 "1001" TicketType.regular 50, sampleTicket 2 7 "P01" TicketType.priority 60,
    sampleTicket 3 7 "1001" TicketType.regular 100, sampleTicket 4 7 "1002" TicketType.regular 120,
    sampleTicket 5 8 "P01" TicketType.priority 125, sampleTicket 6 7 "1003" TicketType.regular 130]

/-- A `Date` constructor for the examples: decimal timestamps are valid dates,
every other string is an invalid date. -/
def sampleParseDate (s : String) : Option Nat :=
  if s.data ≠ [] ∧ s.data.all Char.isDigit then
    some (s.data.foldl (fun n c => 10 * n + (c.toNat - 48)) 0)
  else none

/-- The value of a hexadecimal digit. -/
def hexDigit? (c : Char) : Option Nat :=
  if c.isDigit then some (c.toNat - 48)
  else if 97 ≤ c.toNat ∧ c.toNat ≤ 102 then some (c.toNat - 87)
  else if 65 ≤ c.toNat ∧ c.toNat ≤ 70 then some (c.toNat - 55)
  else none

/-- A cast for the examples: a string of 24 hexadecimal digits is the id it
denotes, every other string is no id. -/
def sampleCastObjectId (s : String) : Option ObjectId :=
  if s.data.length = 24 then
    s.data.foldl (fun acc c =>
      match acc, hexDigit? c with
      | some n, some d => some (16 * n + d)
      | _, _ => none) (some 0)
  else none

/-- The 24-digit string of a one-digit id. -/
def sampleIdString (id : ObjectId) : String :=
  String.mk (List.replicate 23 '0') ++ toString id

/-- The body `callNext` of the dashboard sends: `{ status: 'serving', servedAt }`. -/
def servingBody : QueueController.UpdateBody :=
  { status := some "serving", servedAt := some "170", completedAt := none, noShowAt := none }

/-- A well-formed request for a regular ticket that carries no weight. -/
def regularBody : QueueController.IssueBody :=
  { number := some "1004", type := some "regular", estimatedTime := some 18, priority := none }

/-- A request whose `type` is outside the enum. -/
def vipBody : QueueController.IssueBody :=
  { number := some "V01", type := some "vip", estimatedTime := some 0, priority := none }

/-- A request without `number`. -/
def numberlessBody : QueueController.IssueBody :=
  { number := none, type := some "priority", estimatedTime := some 5, priority := some 1 }

/-- A ticket of owner 7 that has been served and completed. -/
def completedTicket : Ticket :=
  { sampleTicket 2 7 "1002" TicketType.regular 120 with
    status := Status.completed, servedAt := some 130, completedAt := some 140 }

/-- A store that holds the completed ticket between two waiting ones. -/
def completedTicketStore : List Ticket :=
  [sampleTicket 1 7 "1001" TicketType.regular 100, completedTicket,
    sampleTicket 3 8 "1001" TicketType.regular 125]

/-- A body that supplies the status waiting and nothing else. -/
def backToWaitingBody : QueueController.UpdateBody :=
  { status := some "waiting", servedAt := none, completedAt := none, noShowAt := none }

/-- Two waiting regular tickets with the same weight and the same issue date;
the ids are 1 and 2. -/
def tiedTickets : List Ticket :=
  [sampleTicket 1 7 "1001" TicketType.regular 10, sampleTicket 2 7 "1002" TicketType.regular 10]

/-- A dashboard whose list holds two tickets with the display number 1001: a
ticket of an earlier day, completed, and a ticket of today, waiting (the
counter of a new day starts again at 1001). -/
def sameNumberDashboard : QueueSystemV2.Dashboard :=
  { tickets :=
      [{ sampleTicket 1 7 "1001" TicketType.regular 10 with
          status := Status.completed, servedAt := some 20, completedAt := some 30 },
        sampleTicket 2 7 "1001" TicketType.regular 100],
    ticketCounter := { regular := 1002, priority := 1 },
    activeTicket := none,
    selectedType := TicketType.regular }

/-- The controller's answer to the `PUT` of `callNext` on `sameNumberDashboard` (for
ticket 2), the store being the dashboard's list. -/
def sameNumberCall : QueueController.Response × QueueController.Store :=
  QueueController.updateTicket sampleParseDate sampleCastObjectId sameNumberDashboard.tickets 7
    (sampleIdString 2) (QueueSystemV2.callNext.body "110")

/-- The dashboard after that `callNext`. -/
def sameNumberServing : QueueSystemV2.Dashboard :=
  QueueSystemV2.callNext sameNumberDashboard 110 (QueueSystemV2.axios sameNumberCall.1)

/-- A dashboard that is serving ticket P01 of the scenario list. -/
def servingDashboard : QueueSystemV2.Dashboard :=
  { tickets :=
      [{ sampleTicket 1 7 "P01" TicketType.priority 1 with
          status := Status.serving, servedAt := some 4 },
        sampleTicket 2 7 "P02" TicketType.priority 2, sampleTicket 3 7 "1001" TicketType.regular 3],
    ticketCounter := { regular := 1002, priority := 3 },
    activeTicket := some "P01",
    selectedType := TicketType.regular }

/-- The invariant of the specification on one ticket: once the status has left
waiting, exactly one of the three dates is set, the one of the status. -/
def ExactlyOneDate (t : Ticket) : Prop :=
  match t.status with
  | Status.waiting => True
  | Status.serving => t.servedAt ≠ none ∧ t.completedAt = none ∧ t.noShowAt = none
  | Status.completed => t.completedAt ≠ none ∧ t.servedAt = none ∧ t.noShowAt = none
  | Status.noShow => t.noShowAt ≠ none ∧ t.servedAt = none ∧ t.completedAt = none

/-- The date of the status is set. -/
def MatchingDate (t : Ticket) : Prop :=
  match t.status with
  | Status.waiting => True
  | Status.serving => t.servedAt ≠ none
  | Status.completed => t.completedAt ≠ none
  | Status.noShow => t.noShowAt ≠ none

instance : DecidablePred ExactlyOneDate := fun t => by
  unfold ExactlyOneDate; split <;> infer_instance

instance : DecidablePred MatchingDate := fun t => by
  unfold MatchingDate; split <;> infer_instance

/-- The dashboard right after login on an empty queue (the initial values of the
state hooks). -/
def initialDashboard : QueueSystemV2.Dashboard :=
  { tickets := [], ticketCounter := { regular := 1001, priority := 1 }, activeTicket := none,
    selectedType := TicketType.regular }

/-- The store after the dashboard has issued a regular ticket, called it and
completed it: the three requests the controller receives. -/
def flowStore : List Ticket :=
  (QueueController.updateTicket sampleParseDate sampleCastObjectId
    (QueueController.updateTicket sampleParseDate sampleCastObjectId
      (QueueController.issueTicket [] 7 100
        (QueueSystemV2.issueTicket.newTicketData initialDashboard)).2
      7 (sampleIdString 1) (QueueSystemV2.callNext.body "110")).2
    7 (sampleIdString 1) (QueueSystemV2.completeService.body "120")).2

/-- A body that supplies the status serving and no date, which no action of the
dashboard sends. -/
def statusOnlyBody : QueueController.UpdateBody :=
  { status := some "serving", servedAt := none, completedAt := none, noShowAt := none }

/-- The store after a `POST` of the dashboard and a `PUT` with `statusOnlyBody`. -/
def statusOnlyStore : List Ticket :=
  (QueueController.updateTicket sampleParseDate sampleCastObjectId
    (QueueController.issueTicket [] 7 100
      (QueueSystemV2.issueTicket.newTicketData initialDashboard)).2
    7 (sampleIdString 1) statusOnlyBody).2

/-- What an update may do to the dates of a record: the record keeps its id and
every date that was set is still set. -/
def DatesKept (t t' : Ticket) : Prop :=
  t'._id = t._id
  ∧ (t.servedAt ≠ none → t'.servedAt ≠ none)
  ∧ (t.completedAt ≠ none → t'.completedAt ≠ none)
  ∧ (t.noShowAt ≠ none → t'.noShowAt ≠ none)

/-! ## Wait-time estimate -/

namespace QueueSystemV2

/-- The estimate in terms of the two counts of waiting tickets. -/
theorem calculateAdvancedWaitTime_counts (tickets : List Ticket) (ticketType : TicketType) :
    calculateAdvancedWaitTime tickets ticketType =
      if ticketType = TicketType.priority then
        ((tickets.countP
          (fun t => t.status = Status.waiting ∧ t.type = TicketType.priority) : Nat) : Int) * 5
      else
        ((tickets.countP
          (fun t => t.status = Status.waiting ∧ t.type = TicketType.priority) : Nat) : Int) * 5
        + ((tickets.countP
          (fun t => t.status = Status.waiting ∧ t.type = TicketType.regular) : Nat) : Int) * 8 := by
  simp only [calculateAdvancedWaitTime, serviceSettings, List.countP_eq_length_filter,
    List.filter_filter]
  have e1 : (fun t : Ticket => decide (t.status = Status.waiting ∧ t.type = TicketType.priority))
      = (fun t : Ticket =>
        decide (t.type = TicketType.priority) && decide (t.status = Status.waiting)) := by
    funext t; simp [Bool.and_comm]
  have e2 : (fun t : Ticket => decide (t.status = Status.waiting ∧ t.type = TicketType.regular))
      = (fun t : Ticket =>
        decide (t.type = TicketType.regular) && decide (t.status = Status.waiting)) := by
    funext t; simp [Bool.and_comm]
  rw [e1, e2]

/-- C1: with `priorityAhead` the number of tickets that are waiting and of type
priority and `regularAhead` the number that are waiting and of type regular,
`calculateAdvancedWaitTime` is `priorityAhead × 5` for a new priority ticket and
`priorityAhead × 5 + regularAhead × 8` for a new regular one; on the waiting
list `[priority, priority, regular]` a new regular ticket gets 18. -/
theorem calculateAdvancedWaitTime_spec (tickets : List Ticket) :
    calculateAdvancedWaitTime tickets TicketType.priority =
        ((tickets.countP
          (fun t => t.status = Status.waiting ∧ t.type = TicketType.priority) : Nat) : Int) * 5
    ∧ calculateAdvancedWaitTime tickets TicketType.regular =
        ((tickets.countP
          (fun t => t.status = Status.waiting ∧ t.type = TicketType.priority) : Nat) : Int) * 5
        + ((tickets.countP
          (fun t => t.status = Status.waiting ∧ t.type = TicketType.regular) : Nat) : Int) * 8
    ∧ calculateAdvancedWaitTime scenarioWaiting TicketType.regular = 18 := by
  refine ⟨?_, ?_, by decide⟩
  · rw [calculateAdvancedWaitTime_counts]; simp
  · rw [calculateAdvancedWaitTime_counts]; simp

/-- C2: the estimate is non-negative for every ticket list and both classes;
one more waiting priority ticket strictly increases it for both classes; one
more waiting regular ticket strictly increases it for a new regular ticket and
leaves it unchanged for a new priority ticket. -/
theorem calculateAdvancedWaitTime_monotone (l₁ l₂ : List Ticket) (p r : Ticket)
    (hp : p.status = Status.waiting ∧ p.type = TicketType.priority)
    (hr : r.status = Status.waiting ∧ r.type = TicketType.regular) :
    (∀ ticketType, 0 ≤ calculateAdvancedWaitTime (l₁ ++ l₂) ticketType)
    ∧ (∀ ticketType, calculateAdvancedWaitTime (l₁ ++ l₂) ticketType
        < calculateAdvancedWaitTime (l₁ ++ p :: l₂) ticketType)
    ∧ calculateAdvancedWaitTime (l₁ ++ l₂) TicketType.regular
        < calculateAdvancedWaitTime (l₁ ++ r :: l₂) TicketType.regular
    ∧ calculateAdvancedWaitTime (l₁ ++ r :: l₂) TicketType.priority
        = calculateAdvancedWaitTime (l₁ ++ l₂) TicketType.priority := by
  obtain ⟨hp1, hp2⟩ := hp
  obtain ⟨hr1, hr2⟩ := hr
  refine ⟨?_, ?_, ?_, ?_⟩
  · intro ticketType
    rw [calculateAdvancedWaitTime_counts]
    split <;> positivity
  · intro ticketType
    simp only [calculateAdvancedWaitTime_counts, List.countP_append, List.countP_cons]
    simp only [hp1, hp2]
    split <;> simp
  · simp only [calculateAdvancedWaitTime_counts, List.countP_append, List.countP_cons]
    simp only [hr1, hr2]
    simp
  · simp only [calculateAdvancedWaitTime_counts, List.countP_append, List.countP_cons]
    simp only [hr1, hr2]
    simp

/-- The monotonicity statement on the scenario list and two further tickets. -/
theorem calculateAdvancedWaitTime_monotone_witness :
    (∀ ticketType, 0 ≤ calculateAdvancedWaitTime ([] ++ scenarioWaiting) ticketType)
    ∧ (∀ ticketType, calculateAdvancedWaitTime ([] ++ scenarioWaiting) ticketType
        < calculateAdvancedWaitTime
            ([] ++ sampleTicket 4 7 "P03" TicketType.priority 4 :: scenarioWaiting) ticketType)
    ∧ calculateAdvancedWaitTime ([] ++ scenarioWaiting) TicketType.regular
        < calculateAdvancedWaitTime
            ([] ++ sampleTicket 5 7 "1002" TicketType.regular 5 :: scenarioWaiting)
            TicketType.regular
    ∧ calculateAdvancedWaitTime
          ([] ++ sampleTicket 5 7 "1002" TicketType.regular 5 :: scenarioWaiting)
          TicketType.priority
        = calculateAdvancedWaitTime ([] ++ scenarioWaiting) TicketType.priority :=
  calculateAdvancedWaitTime_monotone [] scenarioWaiting
    (sampleTicket 4 7 "P03" TicketType.priority 4) (sampleTicket 5 7 "1002" TicketType.regular 5)
    ⟨rfl, rfl⟩ ⟨rfl, rfl⟩

end QueueSystemV2

/-! ## Waiting order and the choice of `callNext` -/

namespace QueueSystemV2

theorem compareWaiting_nonpos_iff (a b : Ticket) :
    compareWaiting a b ≤ 0 ↔
      b.priority < a.priority ∨ (a.priority = b.priority ∧ a.issuedAt ≤ b.issuedAt) := by
  unfold compareWaiting
  split_ifs with h <;> omega

theorem compareWaiting_total : IsTotal Ticket (fun a b => compareWaiting a b ≤ 0) :=
  ⟨fun a b => by simp only [compareWaiting_nonpos_iff]; omega⟩

theorem compareWaiting_trans : IsTrans Ticket (fun a b => compareWaiting a b ≤ 0) :=
  ⟨fun a b c => by simp only [compareWaiting_nonpos_iff]; omega⟩

theorem mem_waitingTickets {tickets : List Ticket} {t : Ticket} :
    t ∈ waitingTickets tickets ↔ t ∈ tickets ∧ t.status = Status.waiting := by
  simp [waitingTickets, sort, List.mem_insertionSort]

/-- The sequence `waitingTickets` is ordered by weight, then by issue date. -/
theorem waitingTickets_weightThenArrival (tickets : List Ticket) :
    (waitingTickets tickets).Pairwise WeightThenArrival := by
  haveI := compareWaiting_total
  haveI := compareWaiting_trans
  have h := List.sorted_insertionSort (fun a b : Ticket => compareWaiting a b ≤ 0)
    (tickets.filter (fun t => t.status = Status.waiting))
  refine List.Pairwise.imp ?_ h
  intro a b hab
  rw [compareWaiting_nonpos_iff] at hab
  unfold WeightThenArrival
  omega

/-- C3, as the claim states it, fails: with a regular ticket of weight 2 and a
priority ticket of weight 1 waiting, `waitingTickets` puts the priority ticket
behind the regular one. -/
theorem waitingTickets_classThenArrival_counterexample :
    ¬ (waitingTickets weightedTickets).Pairwise ClassThenArrival := by
  decide

/-- C3, amended: when every waiting ticket carries the weight of its class (1 for
priority, 0 for regular), no priority ticket appears after a regular one in
`waitingTickets`, and of two tickets of the same class the one issued earlier
appears first. -/
theorem waitingTickets_classThenArrival (tickets : List Ticket)
    (hw : ∀ t ∈ tickets, t.status = Status.waiting → t.priority = defaultPriority t.type) :
    (waitingTickets tickets).Pairwise ClassThenArrival := by
  refine List.Pairwise.imp_of_mem ?_ (waitingTickets_weightThenArrival tickets)
  intro a b ha hb hab
  rw [mem_waitingTickets] at ha hb
  have hwa := hw a ha.1 ha.2
  have hwb := hw b hb.1 hb.2
  unfold WeightThenArrival at hab
  unfold ClassThenArrival
  rw [hwa, hwb] at hab
  unfold defaultPriority at hab
  refine ⟨?_, ?_⟩
  · rintro ⟨h1, h2⟩
    rw [h1, h2] at hab
    simp at hab
  · intro h
    rw [h] at hab
    exact hab.2 rfl

/-- The amended order on the scenario list, whose tickets carry the default weights. -/
theorem waitingTickets_classThenArrival_witness :
    (waitingTickets scenarioWaiting).Pairwise ClassThenArrival :=
  waitingTickets_classThenArrival scenarioWaiting (by decide)

/-- With no active ticket the guard of line 125 does not fire. -/
theorem callNext_nextTicket_idle (tickets : List Ticket) :
    callNext.nextTicket none tickets =
      match tickets.find? (fun t => t.type = TicketType.priority ∧ t.status = Status.waiting) with
      | some t => some t
      | none =>
        tickets.find? (fun t => t.type = TicketType.regular ∧ t.status = Status.waiting) := by
  simp [callNext.nextTicket, truthy]

/-- C4 at the list `weightedTickets`: `callNext` sends the priority ticket (id 2)
to the API, while the first element of `waitingTickets`, which the dashboard
shows as "Next in Queue", is the regular ticket of weight 2 (id 1), the
waiting ticket of the highest weight. -/
theorem callNext_nextTicket_ne_head_waitingTickets :
    (callNext.nextTicket none weightedTickets).map (fun t => t._id) = some 2
    ∧ ((waitingTickets weightedTickets).head?).map (fun t => t._id) = some 1
    ∧ callNext.nextTicket none weightedTickets ≠ (waitingTickets weightedTickets).head?
    ∧ ∃ t ∈ waitingTickets weightedTickets, ∃ n ∈ callNext.nextTicket none weightedTickets,
        n.priority < t.priority := by
  decide

theorem head?_orderedInsert {α : Type} (r : α → α → Prop) [DecidableRel r] (a : α) (s : List α) :
    (s.orderedInsert r a).head? =
      match s with
      | [] => some a
      | b :: _ => if r a b then some a else some b := by
  cases s with
  | nil => rfl
  | cons b s => by_cases h : r a b <;> simp [List.orderedInsert, h]

/-- On a list of waiting tickets with the default weights, in issue order, the head
of the sorted list is the first priority ticket, or else the first regular one. -/
theorem head?_sort_compareWaiting (l : List Ticket)
    (hw : ∀ t ∈ l, t.priority = defaultPriority t.type)
    (hs : l.Pairwise (fun a b => a.issuedAt ≤ b.issuedAt)) :
    (sort compareWaiting l).head? =
      match l.find? (fun t => t.type = TicketType.priority) with
      | some t => some t
      | none => l.find? (fun t => t.type = TicketType.regular) := by
  induction l with
  | nil => rfl
  | cons a l ih =>
    have ih' := ih (fun t ht => hw t (List.mem_cons_of_mem _ ht)) (List.Pairwise.of_cons hs)
    have hwa := hw a (List.mem_cons_self _ _)
    unfold sort at ih' ⊢
    rw [List.insertionSort, head?_orderedInsert]
    cases hsl : l.insertionSort (fun a b => compareWaiting a b ≤ 0) with
    | nil =>
      have : l = [] := by
        have := congrArg List.length hsl
        rw [List.length_insertionSort] at this
        exact List.length_eq_zero.1 (by simpa using this)
      subst this
      cases hty : a.type <;> simp [List.find?_cons, hty]
    | cons b s =>
      rw [hsl] at ih'
      have hb : b ∈ l := by
        have : b ∈ l.insertionSort (fun a b => compareWaiting a b ≤ 0) := by
          rw [hsl]; exact List.mem_cons_self _ _
        exact (List.mem_insertionSort _).1 this
      have hab : a.issuedAt ≤ b.issuedAt := List.rel_of_pairwise_cons hs hb
      have hwb := hw b (List.mem_cons_of_mem _ hb)
      simp only [List.head?_cons] at ih'
      simp only [compareWaiting_nonpos_iff, hwa, hwb, defaultPriority]
      cases hta : a.type with
      | priority =>
        have : (0 : Int) < 1 ∨ ((1 : Int) = 0 ∧ a.issuedAt ≤ b.issuedAt) := Or.inl (by decide)
        cases htb : b.type <;> simp [List.find?_cons, hta, hab]
      | regular =>
        cases hfp : l.find? (fun t => t.type = TicketType.priority) with
        | some t =>
          rw [hfp] at ih'
          have hbt : b = t := by simpa using ih'
          have htp := List.find?_some hfp
          simp only [decide_eq_true_eq] at htp
          subst hbt
          simp [List.find?_cons, hta, hfp, htp]
        | none =>
          rw [hfp] at ih'
          have hbr := List.find?_some ih'.symm
          simp only [decide_eq_true_eq] at hbr
          simp [List.find?_cons, hta, hfp, hbr, hab]

/-- Where `callNext` and the displayed queue agree: when the waiting tickets carry
the default weights and the list is in issue order (as `getTickets` returns it
and `issueTicket` extends it), `callNext` selects the first element of
`waitingTickets`. -/
theorem callNext_nextTicket_eq_head_of_default (tickets : List Ticket)
    (hw : ∀ t ∈ tickets, t.status = Status.waiting → t.priority = defaultPriority t.type)
    (hs : tickets.Pairwise (fun a b => a.issuedAt ≤ b.issuedAt)) :
    callNext.nextTicket none tickets = (waitingTickets tickets).head? := by
  rw [callNext_nextTicket_idle, waitingTickets, head?_sort_compareWaiting]
  · have e : ∀ ty : TicketType,
        (fun a : Ticket =>
          decide (decide (a.status = Status.waiting) = true ∧ decide (a.type = ty) = true))
        = (fun t : Ticket => decide (t.type = ty ∧ t.status = Status.waiting)) := by
      intro ty; funext t; simp [and_comm]
    simp only [List.find?_filter, e]
  · intro t ht
    rw [List.mem_filter] at ht
    exact hw t ht.1 (by simpa using ht.2)
  · exact List.Pairwise.filter _ hs

/-- C5: with no active ticket, whatever `callNext` selects is a ticket of the
list with status waiting; it selects a priority ticket whenever a waiting
priority ticket exists; it selects nothing exactly when no ticket is waiting;
on `[regular@1, priority@2]` it selects the priority ticket. -/
theorem callNext_nextTicket_spec (tickets : List Ticket) :
    (∀ t, callNext.nextTicket none tickets = some t → t ∈ tickets ∧ t.status = Status.waiting)
    ∧ ((∃ p ∈ tickets, p.type = TicketType.priority ∧ p.status = Status.waiting) →
        ∃ t, callNext.nextTicket none tickets = some t ∧ t.type = TicketType.priority)
    ∧ (callNext.nextTicket none tickets = none ↔ ∀ t ∈ tickets, t.status ≠ Status.waiting)
    ∧ callNext.nextTicket none
        [sampleTicket 1 7 "1001" TicketType.regular 1, sampleTicket 2 7 "P01" TicketType.priority 2]
        = some (sampleTicket 2 7 "P01" TicketType.priority 2) := by
  refine ⟨?_, ?_, ?_, by decide⟩
  · intro t ht
    rw [callNext_nextTicket_idle] at ht
    split at ht
    · rename_i u hu
      cases ht
      have h1 := List.mem_of_find?_eq_some hu
      have h2 := List.find?_some hu
      simp at h2
      exact ⟨h1, h2.2⟩
    · have h1 := List.mem_of_find?_eq_some ht
      have h2 := List.find?_some ht
      simp at h2
      exact ⟨h1, h2.2⟩
  · rintro ⟨p, hp, hpt, hps⟩
    rw [callNext_nextTicket_idle]
    split
    · rename_i u hu
      have h2 := List.find?_some hu
      simp at h2
      exact ⟨u, rfl, h2.1⟩
    · rename_i hnone
      rw [List.find?_eq_none] at hnone
      have := hnone p hp
      simp [hpt, hps] at this
  · rw [callNext_nextTicket_idle]
    constructor
    · intro h t ht hs
      split at h
      · cases h
      · rename_i hnone
        rw [List.find?_eq_none] at hnone h
        have h1 := hnone t ht
        have h2 := h t ht
        cases hty : t.type <;> simp [hty, hs] at h1 h2
    · intro h
      have e1 : tickets.find?
          (fun t => t.type = TicketType.priority ∧ t.status = Status.waiting) = none := by
        rw [List.find?_eq_none]
        intro t ht
        simp [h t ht]
      have e2 : tickets.find?
          (fun t => t.type = TicketType.regular ∧ t.status = Status.waiting) = none := by
        rw [List.find?_eq_none]
        intro t ht
        simp [h t ht]
      simp only [e1, e2]

end QueueSystemV2

/-! ## Ownership and missing records -/

namespace QueueController

theorem findById_of_cast {castObjectId : String → Option ObjectId} (store : Store)
    {id : String} {oid : ObjectId} (h : castObjectId id = some oid) :
    findById castObjectId store id = some (store.find? (fun t => t._id = oid)) := by
  simp [findById, h]

theorem findById_some {castObjectId : String → Option ObjectId} {store : Store} {id : String}
    {ticket : Ticket} (h : findById castObjectId store id = some (some ticket)) :
    ticket ∈ store ∧ castObjectId id = some ticket._id := by
  unfold findById at h
  split at h
  · cases h
  · rename_i oid hc
    simp only [Option.some.injEq] at h
    have h1 := List.mem_of_find?_eq_some h
    have h2 := List.find?_some h
    simp only [decide_eq_true_eq] at h2
    exact ⟨h1, by rw [hc, h2]⟩

/-- C6: when a record with the requested id exists and every record with that
id belongs to a user other than the requester, `updateTicket` (for every body
and every date parser) and `deleteTicket` respond 403 and return the store as
it was. -/
theorem update_delete_forbidden (parseDate : String → Option Nat)
    (castObjectId : String → Option ObjectId) (store : Store)
    (reqUserId : ObjectId) (reqParamsId : String) (body : UpdateBody)
    (hex : ∃ t ∈ store, castObjectId reqParamsId = some t._id)
    (hown : ∀ t ∈ store, castObjectId reqParamsId = some t._id → t.userId ≠ reqUserId) :
    updateTicket parseDate castObjectId store reqUserId reqParamsId body
        = ({ status := 403, body := ResBody.message "Not authorized to update this ticket" }, store)
    ∧ deleteTicket castObjectId store reqUserId reqParamsId
        = ({ status := 403, body := ResBody.message "Not authorized to delete this ticket" },
            store) := by
  obtain ⟨t, ht, hid⟩ := hex
  have hf := findById_of_cast store hid
  cases hfind : store.find? (fun u => u._id = t._id) with
  | none =>
    rw [List.find?_eq_none] at hfind
    have := hfind t ht
    simp at this
  | some ticket =>
    rw [hfind] at hf
    obtain ⟨hmem, hcast⟩ := findById_some hf
    have hne := hown ticket hmem hcast
    simp [updateTicket, deleteTicket, hf, hne]

/-- Owner 8 asks to update and to delete ticket 1 of owner 7. -/
theorem update_delete_forbidden_witness :
    updateTicket sampleParseDate sampleCastObjectId twoOwnerStore 8 (sampleIdString 1) servingBody
        = ({ status := 403, body := ResBody.message "Not authorized to update this ticket" },
            twoOwnerStore)
    ∧ deleteTicket sampleCastObjectId twoOwnerStore 8 (sampleIdString 1)
        = ({ status := 403, body := ResBody.message "Not authorized to delete this ticket" },
            twoOwnerStore) :=
  update_delete_forbidden sampleParseDate sampleCastObjectId twoOwnerStore 8 (sampleIdString 1)
    servingBody (by decide) (by decide)

/-- C10, as the claim states it, fails: no record of the store has the id `abc`,
which is no `ObjectId`; `findById` throws on it and `updateTicket` and
`deleteTicket` answer 500, not 404. -/
theorem update_delete_notFound_counterexample :
    (∀ t ∈ twoOwnerStore, sampleCastObjectId "abc" ≠ some t._id)
    ∧ (updateTicket sampleParseDate sampleCastObjectId twoOwnerStore 8 "abc" servingBody).1.status
        = 500
    ∧ (deleteTicket sampleCastObjectId twoOwnerStore 8 "abc").1.status = 500
    ∧ ¬ ((updateTicket sampleParseDate sampleCastObjectId twoOwnerStore 8 "abc"
            servingBody).1.status = 404
        ∧ (deleteTicket sampleCastObjectId twoOwnerStore 8 "abc").1.status = 404) := by
  decide

/-- C10, amended: when the requested id is well formed (it casts to an `ObjectId`)
and no record of the store has it, `updateTicket` and `deleteTicket` respond
404 with the message "Ticket not found" and return the store as it was, for
every requesting user and every body: the missing-record check comes before
the ownership check. -/
theorem update_delete_notFound (parseDate : String → Option Nat)
    (castObjectId : String → Option ObjectId) (store : Store)
    (reqUserId : ObjectId) (reqParamsId : String) (body : UpdateBody) (id : ObjectId)
    (hcast : castObjectId reqParamsId = some id)
    (hmiss : ∀ t ∈ store, t._id ≠ id) :
    updateTicket parseDate castObjectId store reqUserId reqParamsId body
        = ({ status := 404, body := ResBody.message "Ticket not found" }, store)
    ∧ deleteTicket castObjectId store reqUserId reqParamsId
        = ({ status := 404, body := ResBody.message "Ticket not found" }, store) := by
  have hnone : store.find? (fun t => t._id = id) = none := by
    rw [List.find?_eq_none]
    intro t ht
    simpa using hmiss t ht
  have hf := findById_of_cast store hcast
  rw [hnone] at hf
  simp [updateTicket, deleteTicket, hf]

/-- Owner 8, who owns no such ticket, and the well-formed id 9, which no record has. -/
theorem update_delete_notFound_witness :
    updateTicket sampleParseDate sampleCastObjectId twoOwnerStore 8 (sampleIdString 9) servingBody
        = ({ status := 404, body := ResBody.message "Ticket not found" }, twoOwnerStore)
    ∧ deleteTicket sampleCastObjectId twoOwnerStore 8 (sampleIdString 9)
        = ({ status := 404, body := ResBody.message "Ticket not found" }, twoOwnerStore) :=
  update_delete_notFound sampleParseDate sampleCastObjectId twoOwnerStore 8 (sampleIdString 9)
    servingBody 9 (by decide) (by decide)

/-- An id that does not cast to an `ObjectId` is answered 500 by both handlers, the
store staying as it was. -/
theorem update_delete_castError (parseDate : String → Option Nat)
    (castObjectId : String → Option ObjectId) (store : Store)
    (reqUserId : ObjectId) (reqParamsId : String) (body : UpdateBody)
    (hcast : castObjectId reqParamsId = none) :
    updateTicket parseDate castObjectId store reqUserId reqParamsId body
        = ({ status := 500, body := ResBody.errorMessage }, store)
    ∧ deleteTicket castObjectId store reqUserId reqParamsId
        = ({ status := 500, body := ResBody.errorMessage }, store) := by
  simp [updateTicket, deleteTicket, findById, hcast]

/-! ## Frame of an update -/

theorem assignStatus_supplied (status : Option String) (ticket : Ticket)
    (hv : ∀ s, status = some s → s ≠ "" → (Status.ofString? s).isSome) :
    ∃ new, assignStatus status ticket = some new
      ∧ (∀ s, status = some s → s ≠ "" → Status.ofString? s = some new)
      ∧ (truthy status = false → new = ticket.status) := by
  cases status with
  | none => exact ⟨ticket.status, by simp [assignStatus, truthy]⟩
  | some s =>
    by_cases hs : s = ""
    · exact ⟨ticket.status, by simp [assignStatus, truthy, hs]⟩
    · obtain ⟨st, hst⟩ := Option.isSome_iff_exists.1 (hv s rfl hs)
      exact ⟨st, by simp [assignStatus, truthy, hs, hst]⟩

theorem assignDate_supplied (parseDate : String → Option Nat) (d : Option String)
    (prior : Option Nat) (hv : ∀ s, d = some s → s ≠ "" → (parseDate s).isSome) :
    ∃ new, assignDate parseDate d prior = some new ∧ DateUpdated parseDate d prior new := by
  cases d with
  | none => exact ⟨prior, by simp [assignDate, truthy, DateUpdated]⟩
  | some s =>
    by_cases hs : s = ""
    · exact ⟨prior, by simp [assignDate, truthy, DateUpdated, hs]⟩
    · obtain ⟨t, ht⟩ := Option.isSome_iff_exists.1 (hv s rfl hs)
      exact ⟨some t, by simp [assignDate, truthy, DateUpdated, hs, ht]⟩

theorem save_of_find? {store : Store} {oid : ObjectId} {ticket : Ticket}
    (h : store.find? (fun t => t._id = oid) = some ticket) :
    ∃ l₁ l₂, store = l₁ ++ ticket :: l₂ ∧ (∀ t ∈ l₁, t._id ≠ oid)
      ∧ ∀ doc : Ticket, doc._id = oid → save doc store = l₁ ++ doc :: l₂ := by
  induction store with
  | nil => simp at h
  | cons a rest ih =>
    by_cases ha : a._id = oid
    · have : ticket = a := by
        simp [List.find?_cons, ha] at h
        exact h.symm
      subst this
      exact ⟨[], rest, rfl, by simp, fun doc hd => by simp [save, ha, hd]⟩
    · have h' : rest.find? (fun t => t._id = oid) = some ticket := by
        simpa [List.find?_cons, ha] using h
      obtain ⟨l₁, l₂, hs, hl, hsave⟩ := ih h'
      refine ⟨a :: l₁, l₂, by simp [hs], ?_, ?_⟩
      · intro t ht
        rcases List.mem_cons.1 ht with rfl | ht
        · exact ha
        · exact hl t ht
      · intro doc hd
        have : ¬ a._id = doc._id := by rw [hd]; exact ha
        simp [save, this, hsave doc hd]

/-- The record `findById` loads splits the store, and `save` overwrites it in place. -/
theorem save_of_findById {castObjectId : String → Option ObjectId} {store : Store}
    {id : String} {ticket : Ticket}
    (h : findById castObjectId store id = some (some ticket)) :
    ∃ l₁ l₂, store = l₁ ++ ticket :: l₂ ∧ (∀ t ∈ l₁, castObjectId id ≠ some t._id)
      ∧ ∀ doc : Ticket, doc._id = ticket._id → save doc store = l₁ ++ doc :: l₂ := by
  have hc := (findById_some h).2
  rw [findById_of_cast store hc] at h
  simp only [Option.some.injEq] at h
  obtain ⟨l₁, l₂, hs, hl, hsave⟩ := save_of_find? h
  refine ⟨l₁, l₂, hs, ?_, hsave⟩
  intro t ht hct
  rw [hc] at hct
  exact hl t ht (Option.some.inj hct).symm

/-- C7: when the owner updates the ticket that `findById` loads and every
supplied value is valid, the response is 200 with the updated record `u`:
each of status, servedAt, completedAt, noShowAt that the body supplies has the
supplied value and each one not supplied keeps its prior value; `_id`, userId,
number, type, issuedAt, estimatedTime and priority are those of the ticket;
the store after the call is the store before it with `u` in the place of the
ticket and every other record unchanged. -/
theorem updateTicket_owner_frame (parseDate : String → Option Nat)
    (castObjectId : String → Option ObjectId) (store : Store)
    (reqUserId : ObjectId) (reqParamsId : String) (body : UpdateBody) (ticket : Ticket)
    (hfind : findById castObjectId store reqParamsId = some (some ticket))
    (howner : ticket.userId = reqUserId)
    (hvalid : ValidBody parseDate body) :
    ∃ u l₁ l₂,
      store = l₁ ++ ticket :: l₂
      ∧ updateTicket parseDate castObjectId store reqUserId reqParamsId body
        = ({ status := 200, body := ResBody.ticket u }, l₁ ++ u :: l₂)
      ∧ (∀ s, body.status = some s → s ≠ "" → Status.ofString? s = some u.status)
      ∧ (truthy body.status = false → u.status = ticket.status)
      ∧ DateUpdated parseDate body.servedAt ticket.servedAt u.servedAt
      ∧ DateUpdated parseDate body.completedAt ticket.completedAt u.completedAt
      ∧ DateUpdated parseDate body.noShowAt ticket.noShowAt u.noShowAt
      ∧ (u._id = ticket._id ∧ u.userId = ticket.userId ∧ u.number = ticket.number
          ∧ u.type = ticket.type ∧ u.issuedAt = ticket.issuedAt
          ∧ u.estimatedTime = ticket.estimatedTime ∧ u.priority = ticket.priority) := by
  obtain ⟨hvs, hvd⟩ := hvalid
  obtain ⟨st, hst, hst1, hst2⟩ := assignStatus_supplied body.status ticket hvs
  obtain ⟨sa, hsa, hsa1⟩ := assignDate_supplied parseDate body.servedAt ticket.servedAt
    (hvd _ (by simp))
  obtain ⟨ca, hca, hca1⟩ := assignDate_supplied parseDate body.completedAt ticket.completedAt
    (hvd _ (by simp))
  obtain ⟨na, hna, hna1⟩ := assignDate_supplied parseDate body.noShowAt ticket.noShowAt
    (hvd _ (by simp))
  obtain ⟨l₁, l₂, hsplit, _, hsave⟩ := save_of_findById hfind
  refine ⟨{ ticket with status := st, servedAt := sa, completedAt := ca, noShowAt := na },
    l₁, l₂, hsplit, ?_, hst1, hst2, hsa1, hca1, hna1, ⟨rfl, rfl, rfl, rfl, rfl, rfl, rfl⟩⟩
  have hs := hsave { ticket with status := st, servedAt := sa, completedAt := ca, noShowAt := na }
    rfl
  subst howner
  simp [updateTicket, hfind, applyUpdate, hst, hsa, hca, hna, hs]

/-- Owner 7 moves ticket 2 to serving, as `callNext` does: the status and
servedAt change, ticket 2 keeps its other fields, the six other records stay. -/
theorem updateTicket_owner_frame_witness :
    ∃ u l₁ l₂,
      twoOwnerStore = l₁ ++ sampleTicket 2 7 "1002" TicketType.regular 120 :: l₂
      ∧ updateTicket sampleParseDate sampleCastObjectId twoOwnerStore 7 (sampleIdString 2) servingBody
        = ({ status := 200, body := ResBody.ticket u }, l₁ ++ u :: l₂)
      ∧ (∀ s, servingBody.status = some s → s ≠ "" → Status.ofString? s = some u.status)
      ∧ (truthy servingBody.status = false →
          u.status = (sampleTicket 2 7 "1002" TicketType.regular 120).status)
      ∧ DateUpdated sampleParseDate servingBody.servedAt
          (sampleTicket 2 7 "1002" TicketType.regular 120).servedAt u.servedAt
      ∧ DateUpdated sampleParseDate servingBody.completedAt
          (sampleTicket 2 7 "1002" TicketType.regular 120).completedAt u.completedAt
      ∧ DateUpdated sampleParseDate servingBody.noShowAt
          (sampleTicket 2 7 "1002" TicketType.regular 120).noShowAt u.noShowAt
      ∧ (u._id = (sampleTicket 2 7 "1002" TicketType.regular 120)._id
          ∧ u.userId = (sampleTicket 2 7 "1002" TicketType.regular 120).userId
          ∧ u.number = (sampleTicket 2 7 "1002" TicketType.regular 120).number
          ∧ u.type = (sampleTicket 2 7 "1002" TicketType.regular 120).type
          ∧ u.issuedAt = (sampleTicket 2 7 "1002" TicketType.regular 120).issuedAt
          ∧ u.estimatedTime = (sampleTicket 2 7 "1002" TicketType.regular 120).estimatedTime
          ∧ u.priority = (sampleTicket 2 7 "1002" TicketType.regular 120).priority) :=
  updateTicket_owner_frame sampleParseDate sampleCastObjectId twoOwnerStore 7 (sampleIdString 2)
    servingBody
    (sampleTicket 2 7 "1002" TicketType.regular 120) (by decide) (by decide)
    (by simp [ValidBody, servingBody, Status.ofString?, sampleParseDate])

/-- The other outcome of an owner's update: a supplied value that `save` rejects
gives 500 and the store as it was. -/
theorem updateTicket_owner_rejected (parseDate : String → Option Nat)
    (castObjectId : String → Option ObjectId) (store : Store)
    (reqUserId : ObjectId) (reqParamsId : String) (body : UpdateBody) (ticket : Ticket)
    (hfind : findById castObjectId store reqParamsId = some (some ticket))
    (howner : ticket.userId = reqUserId)
    (hinvalid : ¬ ValidBody parseDate body) :
    updateTicket parseDate castObjectId store reqUserId reqParamsId body
      = ({ status := 500, body := ResBody.errorMessage }, store) := by
  have hd : ∀ (d : Option String) (prior new : Option Nat),
      assignDate parseDate d prior = some new →
        ∀ s, d = some s → s ≠ "" → (parseDate s).isSome := by
    intro d prior new h s hs hne
    subst hs
    cases hp : parseDate s with
    | none => simp [assignDate, truthy, hne, hp] at h
    | some v => rfl
  cases hu : applyUpdate parseDate ticket body with
  | none => simp [updateTicket, hfind, howner, hu]
  | some u =>
    exfalso
    apply hinvalid
    unfold applyUpdate at hu
    split at hu
    · rename_i st sa ca na hst hsa hca hna
      refine ⟨?_, ?_⟩
      · intro s hs hne
        cases ho : Status.ofString? s with
        | none => simp [assignStatus, truthy, hs, hne, ho] at hst
        | some v => rfl
      · intro d hmem
        simp only [List.mem_cons, List.mem_singleton, List.not_mem_nil, or_false] at hmem
        rcases hmem with rfl | rfl | rfl
        · exact hd _ _ _ hsa
        · exact hd _ _ _ hca
        · exact hd _ _ _ hna
    · cases hu

/-! ## Reset and counters -/

/-- C8: `resetQueue` responds 200 and leaves a store that holds a record exactly
when the store before held it and its userId is not the caller: the caller has
no ticket left, the tickets of every other owner are the same as before, in the
same order, and nothing is added or altered (the result is a sublist). With
owner 7 holding 5 tickets and owner 8 holding 2, after the reset by owner 7
owner 7 has 0 and owner 8 still has 2. -/
theorem resetQueue_spec (store : Store) (reqUserId : ObjectId) :
    (resetQueue store reqUserId).1
        = { status := 200, body := ResBody.message "Queue reset successfully" }
    ∧ (∀ t, t ∈ (resetQueue store reqUserId).2 ↔ t ∈ store ∧ t.userId ≠ reqUserId)
    ∧ (resetQueue store reqUserId).2.filter (fun t => t.userId = reqUserId) = []
    ∧ (∀ other, other ≠ reqUserId →
        (resetQueue store reqUserId).2.filter (fun t => t.userId = other)
          = store.filter (fun t => t.userId = other))
    ∧ List.Sublist (resetQueue store reqUserId).2 store
    ∧ (twoOwnerStore.countP (fun t => t.userId = 7) = 5
        ∧ twoOwnerStore.countP (fun t => t.userId = 8) = 2
        ∧ (resetQueue twoOwnerStore 7).2.countP (fun t => t.userId = 7) = 0
        ∧ (resetQueue twoOwnerStore 7).2.countP (fun t => t.userId = 8) = 2) := by
  refine ⟨rfl, ?_, ?_, ?_, ?_, by decide⟩
  · intro t
    simp [resetQueue]
  · simp only [resetQueue, List.filter_filter, List.filter_eq_nil_iff]
    intro t _
    simp
  · intro other hne
    simp only [resetQueue, List.filter_filter]
    apply List.filter_congr
    intro t _
    by_cases h : t.userId = other
    · simp [h, hne]
    · simp [h]
  · exact List.filter_sublist _

/-- C9: `getCounters` responds 200 with regular = 1001 + the number of the
caller's regular tickets issued at or after `today` and priority = 1 + the
number of the caller's priority tickets issued at or after `today`; a ticket
of another owner, or one issued before `today`, does not change the response
wherever it stands in the store; three regular and no priority tickets today
give regular 1004 and priority 1. -/
theorem getCounters_spec (store : Store) (reqUserId : ObjectId) (today : Nat) :
    getCounters store reqUserId today
        = { status := 200,
            body := ResBody.counters
              (1001 + (((store.filter (fun t => t.userId = reqUserId)).filter
                  (fun t => today ≤ t.issuedAt)).countP
                    (fun t => t.type = TicketType.regular) : Nat))
              (1 + (((store.filter (fun t => t.userId = reqUserId)).filter
                  (fun t => today ≤ t.issuedAt)).countP
                    (fun t => t.type = TicketType.priority) : Nat)) }
    ∧ (∀ (l₁ l₂ : Store) (t : Ticket), t.userId ≠ reqUserId ∨ t.issuedAt < today →
        getCounters (l₁ ++ t :: l₂) reqUserId today = getCounters (l₁ ++ l₂) reqUserId today)
    ∧ getCounters countersStore 7 100 = { status := 200, body := ResBody.counters 1004 1 } := by
  refine ⟨?_, ?_, by decide⟩
  · simp only [getCounters, List.countP_filter]
    have e : ∀ ty : TicketType,
        (fun t : Ticket => decide (t.userId = reqUserId ∧ t.type = ty ∧ today ≤ t.issuedAt))
        = (fun t : Ticket =>
            decide (t.type = ty) && decide (today ≤ t.issuedAt) && decide (t.userId = reqUserId)) := by
      intro ty
      funext t
      by_cases h1 : t.userId = reqUserId <;> by_cases h2 : t.type = ty <;>
        by_cases h3 : today ≤ t.issuedAt <;> simp [h1, h2, h3]
    rw [e, e]
    simp [add_comm]
  · intro l₁ l₂ t ht
    have hf : ∀ ty : TicketType,
        ¬ (t.userId = reqUserId ∧ t.type = ty ∧ today ≤ t.issuedAt) := by
      intro ty h
      rcases ht with h1 | h1
      · exact h1 h.1
      · omega
    simp only [getCounters, List.countP_append, List.countP_cons, hf]
    simp

end QueueController

/-! ## Issuing and listing tickets -/

namespace QueueController

theorem create_eq_some_of_valid (userId newId : ObjectId) (now : Nat) (body : IssueBody)
    (priority : Int) (hv : ValidIssue body) :
    ∃ n ty e, body.number = some n ∧ n ≠ "" ∧ body.type.bind TicketType.ofString? = some ty
      ∧ body.estimatedTime = some e
      ∧ create userId newId now body.number body.type body.estimatedTime priority
        = some { _id := newId, userId := userId, number := n, type := ty, issuedAt := now,
                 status := Status.waiting, estimatedTime := e, priority := priority,
                 servedAt := none, completedAt := none, noShowAt := none } := by
  obtain ⟨⟨n, hn, hne⟩, ⟨s, ty, hs, hty⟩, ⟨e, he⟩⟩ := hv
  refine ⟨n, ty, e, hn, hne, by simp [hs, hty], he, ?_⟩
  simp [create, hn, hs, hty, he, hne]

theorem create_eq_none_of_invalid (userId newId : ObjectId) (now : Nat) (body : IssueBody)
    (priority : Int) (hv : ¬ ValidIssue body) :
    create userId newId now body.number body.type body.estimatedTime priority = none := by
  cases hc : create userId newId now body.number body.type body.estimatedTime priority with
  | none => rfl
  | some t =>
    exfalso
    apply hv
    unfold create at hc
    split at hc
    · rename_i n ty e hn hty he
      by_cases hne : n = ""
      · simp [hne] at hc
      · cases hbt : body.type with
        | none => simp [hbt] at hty
        | some s =>
          simp only [hbt, Option.some_bind] at hty
          exact ⟨⟨n, hn, hne⟩, ⟨s, ty, hbt, hty⟩, ⟨e, he⟩⟩
    · cases hc

/-- C11, as the claim states it, fails: a request whose `type` is outside the
enum is answered with status 500, not 400. -/
theorem issueTicket_invalid_status_counterexample :
    ¬ (issueTicket twoOwnerStore 7 200 vipBody).1.status = 400 := by
  decide

/-- C11, amended: a request whose `type` is outside the enum or that lacks
`number`, `type` or `estimatedTime` gets the response 500 of the `catch` block
and the store stays as it was: no record is created. -/
theorem issueTicket_invalid_rejected (store : Store) (reqUserId : ObjectId) (now : Nat)
    (body : IssueBody) (hinvalid : ¬ ValidIssue body) :
    issueTicket store reqUserId now body
      = ({ status := 500, body := ResBody.errorMessage }, store) := by
  simp [issueTicket, create_eq_none_of_invalid reqUserId _ now body _ hinvalid]

theorem not_validIssue_vipBody : ¬ ValidIssue vipBody := by
  rintro ⟨_, ⟨s, ty, hs, hty⟩, _⟩
  simp only [vipBody, Option.some.injEq] at hs
  subst hs
  simp [TicketType.ofString?] at hty

/-- The request with `type: 'vip'` on the two-owner store. -/
theorem issueTicket_invalid_rejected_witness :
    issueTicket twoOwnerStore 7 200 vipBody
      = ({ status := 500, body := ResBody.errorMessage }, twoOwnerStore) :=
  issueTicket_invalid_rejected twoOwnerStore 7 200 vipBody not_validIssue_vipBody

theorem validIssue_regularBody : ValidIssue regularBody :=
  ⟨⟨"1004", rfl, by decide⟩, ⟨"regular", TicketType.regular, rfl, by decide⟩, ⟨18, rfl⟩⟩

theorem ofString?_eq_some {s : String} {ty : TicketType}
    (h : TicketType.ofString? s = some ty) : s = TicketType.toString ty := by
  simp only [TicketType.ofString?] at h
  split_ifs at h with h1 h2
  · cases h; simpa [TicketType.toString] using h1
  · cases h; simpa [TicketType.toString] using h2

/-- A request that passes the schema is answered 201 and the created record is
appended to the store. -/
theorem issueTicket_of_valid (store : Store) (reqUserId : ObjectId) (now : Nat)
    (body : IssueBody) (hv : ValidIssue body) :
    ∃ n ty e, body.number = some n ∧ body.type = some (TicketType.toString ty)
      ∧ body.estimatedTime = some e
      ∧ issueTicket store reqUserId now body
        = ({ status := 201,
             body := ResBody.ticket
               { _id := newObjectId store, userId := reqUserId, number := n, type := ty,
                 issuedAt := now, status := Status.waiting, estimatedTime := e,
                 priority := issuePriority body.priority body.type,
                 servedAt := none, completedAt := none, noShowAt := none } },
           store ++
             [{ _id := newObjectId store, userId := reqUserId, number := n, type := ty,
                issuedAt := now, status := Status.waiting, estimatedTime := e,
                priority := issuePriority body.priority body.type,
                servedAt := none, completedAt := none, noShowAt := none }]) := by
  obtain ⟨n, ty, e, hn, _, hty, he, hc⟩ :=
    create_eq_some_of_valid reqUserId (newObjectId store) now body
      (issuePriority body.priority body.type) hv
  refine ⟨n, ty, e, hn, ?_, he, by simp only [issueTicket, hc]⟩
  cases hbt : body.type with
  | none => simp [hbt] at hty
  | some s =>
    simp only [hbt, Option.some_bind] at hty
    rw [ofString?_eq_some hty]

/-- C14: when the request carries no weight, a request that passes the schema is
answered 201 with a record whose `priority` is 1 if its type is priority and 0
otherwise. -/
theorem issueTicket_default_priority (store : Store) (reqUserId : ObjectId) (now : Nat)
    (body : IssueBody) (hnone : body.priority = none) (hvalid : ValidIssue body) :
    ∃ t, issueTicket store reqUserId now body
        = ({ status := 201, body := ResBody.ticket t }, store ++ [t])
      ∧ body.type = some (TicketType.toString t.type)
      ∧ t.priority = (if t.type = TicketType.priority then 1 else 0) := by
  obtain ⟨n, ty, e, _, hty, _, hi⟩ := issueTicket_of_valid store reqUserId now body hvalid
  refine ⟨_, hi, hty, ?_⟩
  cases ty <;> simp [issuePriority, hnone, hty, TicketType.toString]

/-- The weightless request for a regular ticket is stored with weight 0. -/
theorem issueTicket_default_priority_witness :
    ∃ t, issueTicket twoOwnerStore 7 200 regularBody
        = ({ status := 201, body := ResBody.ticket t }, twoOwnerStore ++ [t])
      ∧ regularBody.type = some (TicketType.toString t.type)
      ∧ t.priority = (if t.type = TicketType.priority then 1 else 0) :=
  issueTicket_default_priority twoOwnerStore 7 200 regularBody rfl validIssue_regularBody

/-- The id a new document gets is above every id of the collection. -/
theorem lt_newObjectId (store : Store) : ∀ t ∈ store, t._id < newObjectId store := by
  induction store with
  | nil => simp
  | cons a rest ih =>
    intro t ht
    have hcons : newObjectId (a :: rest) = max (a._id + 1) (newObjectId rest) := rfl
    rw [hcons]
    rcases List.mem_cons.1 ht with h | h
    · subst h
      exact Nat.lt_of_lt_of_le (Nat.lt_succ_self _) (Nat.le_max_left _ _)
    · exact Nat.lt_of_lt_of_le (ih t h) (Nat.le_max_right _ _)

/-- C15: a request that passes the schema is answered 201 and appends exactly
one record to the store, every existing record staying as it was; the record
has the caller as userId, status waiting and the supplied number, type and
estimatedTime, and its id differs from every existing id. A second issuance
with the same body appends a second record behind the first, which is not
altered, and the two ids (hence the two records) differ. -/
theorem issueTicket_adds_one (store : Store) (reqUserId : ObjectId) (now₁ now₂ : Nat)
    (body : IssueBody) (hvalid : ValidIssue body) :
    ∃ t₁ t₂,
      issueTicket store reqUserId now₁ body
        = ({ status := 201, body := ResBody.ticket t₁ }, store ++ [t₁])
      ∧ t₁.userId = reqUserId ∧ t₁.status = Status.waiting
      ∧ body.number = some t₁.number ∧ body.type = some (TicketType.toString t₁.type)
      ∧ body.estimatedTime = some t₁.estimatedTime
      ∧ (∀ t ∈ store, t._id ≠ t₁._id)
      ∧ issueTicket (store ++ [t₁]) reqUserId now₂ body
        = ({ status := 201, body := ResBody.ticket t₂ }, store ++ [t₁, t₂])
      ∧ t₁._id ≠ t₂._id ∧ t₁ ≠ t₂ := by
  obtain ⟨n, ty, e, hn, hty, he, h₁⟩ := issueTicket_of_valid store reqUserId now₁ body hvalid
  obtain ⟨n', ty', e', _, _, _, h₂⟩ :=
    issueTicket_of_valid
      (store ++
        [{ _id := newObjectId store, userId := reqUserId, number := n, type := ty,
           issuedAt := now₁, status := Status.waiting, estimatedTime := e,
           priority := issuePriority body.priority body.type,
           servedAt := none, completedAt := none, noShowAt := none }])
      reqUserId now₂ body hvalid
  rw [List.append_assoc, List.singleton_append] at h₂
  have hfresh : ∀ t ∈ store, t._id ≠ newObjectId store :=
    fun t ht => Nat.ne_of_lt (lt_newObjectId store t ht)
  have hne : newObjectId store ≠
      newObjectId (store ++
        [{ _id := newObjectId store, userId := reqUserId, number := n, type := ty,
           issuedAt := now₁, status := Status.waiting, estimatedTime := e,
           priority := issuePriority body.priority body.type,
           servedAt := none, completedAt := none, noShowAt := none }]) :=
    Nat.ne_of_lt (lt_newObjectId _
      { _id := newObjectId store, userId := reqUserId, number := n, type := ty,
        issuedAt := now₁, status := Status.waiting, estimatedTime := e,
        priority := issuePriority body.priority body.type,
        servedAt := none, completedAt := none, noShowAt := none } (by simp))
  refine ⟨_, _, h₁, rfl, rfl, hn, hty, he, hfresh, h₂, hne, ?_⟩
  intro h
  exact hne (congrArg Ticket._id h)

/-- Two issuances of the weightless regular request on the two-owner store, whose
ids end at 7: the records get the ids 8 and 9. -/
theorem issueTicket_adds_one_witness :
    ∃ t₁ t₂,
      issueTicket twoOwnerStore 7 200 regularBody
        = ({ status := 201, body := ResBody.ticket t₁ }, twoOwnerStore ++ [t₁])
      ∧ t₁.userId = 7 ∧ t₁.status = Status.waiting
      ∧ regularBody.number = some t₁.number
      ∧ regularBody.type = some (TicketType.toString t₁.type)
      ∧ regularBody.estimatedTime = some t₁.estimatedTime
      ∧ (∀ t ∈ twoOwnerStore, t._id ≠ t₁._id)
      ∧ issueTicket (twoOwnerStore ++ [t₁]) 7 201 regularBody
        = ({ status := 201, body := ResBody.ticket t₂ }, twoOwnerStore ++ [t₁, t₂])
      ∧ t₁._id ≠ t₂._id ∧ t₁ ≠ t₂ :=
  issueTicket_adds_one twoOwnerStore 7 200 201 regularBody validIssue_regularBody

theorem issuedAt_le_total : IsTotal Ticket (fun a b => a.issuedAt ≤ b.issuedAt) :=
  ⟨fun a b => Nat.le_total a.issuedAt b.issuedAt⟩

theorem issuedAt_le_trans : IsTrans Ticket (fun a b => a.issuedAt ≤ b.issuedAt) :=
  ⟨fun _ _ _ h₁ h₂ => Nat.le_trans h₁ h₂⟩

/-- C16: `getTickets` responds 200 with a list that is a rearrangement of the
caller's records of the store (each as often as the store holds it, none of
another owner) in ascending order of issuedAt. -/
theorem getTickets_spec (store : Store) (reqUserId : ObjectId) :
    ∃ l, getTickets store reqUserId = { status := 200, body := ResBody.tickets l }
      ∧ l.Perm (store.filter (fun t => t.userId = reqUserId))
      ∧ (∀ t, t ∈ l ↔ t ∈ store ∧ t.userId = reqUserId)
      ∧ (∀ t, t.userId = reqUserId → l.count t = store.count t)
      ∧ l.Pairwise (fun a b => a.issuedAt ≤ b.issuedAt) := by
  haveI := issuedAt_le_total
  haveI := issuedAt_le_trans
  have hp := List.perm_insertionSort (fun a b : Ticket => a.issuedAt ≤ b.issuedAt)
    (store.filter (fun t => t.userId = reqUserId))
  refine ⟨_, rfl, hp, ?_, ?_, ?_⟩
  · intro t
    rw [hp.mem_iff]
    simp
  · intro t ht
    rw [hp.count_eq, List.count_filter]
    simpa using ht
  · exact List.sorted_insertionSort _ _

/-! ## Status transitions -/

theorem ofString?_toString (target : Status) :
    Status.ofString? (Status.toString target) = some target ∧ Status.toString target ≠ "" := by
  cases target <;> exact ⟨by decide, by decide⟩

/-- C18: for every ticket (whatever its current status) and every target
status, an update by the owner whose body supplies the target status, its
date fields being absent or valid dates, is answered 200 and leaves the ticket
in the store with the target status; no order of transitions is enforced. -/
theorem updateTicket_any_transition (parseDate : String → Option Nat)
    (castObjectId : String → Option ObjectId) (store : Store)
    (reqUserId : ObjectId) (reqParamsId : String) (body : UpdateBody) (ticket : Ticket) (target : Status)
    (hfind : findById castObjectId store reqParamsId = some (some ticket))
    (howner : ticket.userId = reqUserId)
    (hstatus : body.status = some (Status.toString target))
    (hdates : ∀ d ∈ [body.servedAt, body.completedAt, body.noShowAt],
      ∀ s, d = some s → s ≠ "" → (parseDate s).isSome) :
    ∃ u l₁ l₂,
      store = l₁ ++ ticket :: l₂
      ∧ updateTicket parseDate castObjectId store reqUserId reqParamsId body
        = ({ status := 200, body := ResBody.ticket u }, l₁ ++ u :: l₂)
      ∧ u._id = ticket._id
      ∧ u.status = target := by
  obtain ⟨hof, hne⟩ := ofString?_toString target
  have hst : assignStatus body.status ticket = some target := by
    simp [assignStatus, hstatus, truthy, hne, hof]
  obtain ⟨sa, hsa, _⟩ := assignDate_supplied parseDate body.servedAt ticket.servedAt
    (hdates _ (by simp))
  obtain ⟨ca, hca, _⟩ := assignDate_supplied parseDate body.completedAt ticket.completedAt
    (hdates _ (by simp))
  obtain ⟨na, hna, _⟩ := assignDate_supplied parseDate body.noShowAt ticket.noShowAt
    (hdates _ (by simp))
  obtain ⟨l₁, l₂, hsplit, _, hsave⟩ := save_of_findById hfind
  refine ⟨{ ticket with status := target, servedAt := sa, completedAt := ca, noShowAt := na },
    l₁, l₂, hsplit, ?_, rfl, rfl⟩
  have hs := hsave
    { ticket with status := target, servedAt := sa, completedAt := ca, noShowAt := na } rfl
  subst howner
  simp [updateTicket, hfind, applyUpdate, hst, hsa, hca, hna, hs]

/-- A backward move: the owner sets ticket 2 of the store, which is completed,
back to waiting. -/
theorem updateTicket_any_transition_witness :
    ∃ u l₁ l₂,
      completedTicketStore = l₁ ++ completedTicket :: l₂
      ∧ updateTicket sampleParseDate sampleCastObjectId completedTicketStore 7 (sampleIdString 2)
          backToWaitingBody
        = ({ status := 200, body := ResBody.ticket u }, l₁ ++ u :: l₂)
      ∧ u._id = completedTicket._id
      ∧ u.status = Status.waiting :=
  updateTicket_any_transition sampleParseDate sampleCastObjectId completedTicketStore 7
    (sampleIdString 2) backToWaitingBody
    completedTicket Status.waiting (by decide) (by decide) (by decide)
    (by simp [backToWaitingBody])

end QueueController

/-! ## Ties in the waiting order -/

namespace QueueSystemV2

/-- Two sorted rearrangements of one list are equal when the order is
antisymmetric on its elements. -/
theorem eq_of_perm_of_pairwise {α : Type} (r : α → α → Prop) :
    ∀ (l₁ l₂ : List α), l₁.Perm l₂ → l₁.Pairwise r → l₂.Pairwise r →
      (∀ a ∈ l₁, ∀ b ∈ l₁, r a b → r b a → a = b) → l₁ = l₂
  | [], l₂, hp, _, _, _ => (List.Perm.nil_eq hp)
  | a :: l₁, [], hp, _, _, _ => absurd hp.symm (List.nil_perm.not.2 (by simp))
  | a :: l₁, b :: l₂, hp, h₁, h₂, hanti => by
    have hab : a = b := by
      by_cases h : a = b
      · exact h
      · have hb : b ∈ a :: l₁ := hp.symm.subset (List.mem_cons_self _ _)
        have ha : a ∈ b :: l₂ := hp.subset (List.mem_cons_self _ _)
        have hb' : b ∈ l₁ := by
          rcases List.mem_cons.1 hb with hb | hb
          · exact absurd hb.symm h
          · exact hb
        have ha' : a ∈ l₂ := by
          rcases List.mem_cons.1 ha with ha | ha
          · exact absurd ha h
          · exact ha
        exact hanti a (List.mem_cons_self _ _) b hb
          (List.rel_of_pairwise_cons h₁ hb') (List.rel_of_pairwise_cons h₂ ha')
    subst hab
    have ih := eq_of_perm_of_pairwise r l₁ l₂ (List.Perm.cons_inv hp) (List.Pairwise.of_cons h₁)
      (List.Pairwise.of_cons h₂)
      (fun x hx y hy => hanti x (List.mem_cons_of_mem _ hx) y (List.mem_cons_of_mem _ hy))
    rw [ih]

/-- C13, as the claim states it, fails: the two tickets of `tiedTickets` have equal
weight and issue date; listed in the other order they come out of
`waitingTickets` in the other order, the ticket with the larger id first. -/
theorem waitingTickets_perm_counterexample :
    tiedTickets.reverse.Perm tiedTickets
    ∧ waitingTickets tiedTickets.reverse ≠ waitingTickets tiedTickets
    ∧ (waitingTickets tiedTickets.reverse).map (fun t => t._id) = [2, 1] := by
  refine ⟨List.reverse_perm _, by decide, by decide⟩

/-- C13, amended: waiting tickets with equal weight and equal issue date keep the
order in which they stand in the ticket list (there is no tie-break by id);
two permutations of a ticket list in which no two distinct waiting tickets
share both weight and issue date have the same `waitingTickets` sequence. -/
theorem waitingTickets_stable_and_perm (l₁ l₂ : List Ticket) (hp : l₁.Perm l₂)
    (hties : ∀ a ∈ l₁, ∀ b ∈ l₁, a.status = Status.waiting → b.status = Status.waiting →
      a.priority = b.priority → a.issuedAt = b.issuedAt → a = b) :
    (∀ (tickets : List Ticket) (a b : Ticket), List.Sublist [a, b] tickets →
        a.status = Status.waiting → b.status = Status.waiting →
        a.priority = b.priority → a.issuedAt = b.issuedAt →
        List.Sublist [a, b] (waitingTickets tickets))
    ∧ waitingTickets l₁ = waitingTickets l₂ := by
  constructor
  · intro tickets a b hsub ha hb hw hi
    have hf : List.Sublist [a, b] (tickets.filter (fun t => t.status = Status.waiting)) := by
      have := hsub.filter (fun t => decide (t.status = Status.waiting))
      simpa [ha, hb] using this
    unfold waitingTickets sort
    refine List.pair_sublist_insertionSort ?_ hf
    rw [compareWaiting_nonpos_iff]
    omega
  · refine eq_of_perm_of_pairwise (fun a b => compareWaiting a b ≤ 0) _ _ ?_ ?_ ?_ ?_
    · unfold waitingTickets sort
      exact (List.perm_insertionSort _ _).trans
        ((hp.filter _).trans (List.perm_insertionSort _ _).symm)
    · haveI := compareWaiting_total
      haveI := compareWaiting_trans
      exact List.sorted_insertionSort _ _
    · haveI := compareWaiting_total
      haveI := compareWaiting_trans
      exact List.sorted_insertionSort _ _
    · intro a ha b hb hab hba
      rw [mem_waitingTickets] at ha hb
      rw [compareWaiting_nonpos_iff] at hab hba
      exact hties a ha.1 b hb.1 ha.2 hb.2 (by omega) (by omega)

/-- The scenario list, whose issue dates differ, and its reverse. -/
theorem waitingTickets_stable_and_perm_witness :
    (∀ (tickets : List Ticket) (a b : Ticket), List.Sublist [a, b] tickets →
        a.status = Status.waiting → b.status = Status.waiting →
        a.priority = b.priority → a.issuedAt = b.issuedAt →
        List.Sublist [a, b] (waitingTickets tickets))
    ∧ waitingTickets scenarioWaiting.reverse = waitingTickets scenarioWaiting :=
  waitingTickets_stable_and_perm scenarioWaiting.reverse scenarioWaiting
    (List.reverse_perm _) (by decide)

end QueueSystemV2

/-! ## Dashboard actions -/

namespace QueueSystemV2

open QueueController

/-- C17: when the request of a dashboard action is rejected (a response whose
status is not 2xx, or no response at all), `issueTicket`, `callNext`,
`completeService`, `noShow` and `resetSystem` return the local state they were
given: tickets, ticketCounter and activeTicket are as before. -/
theorem rejected_keeps_state (st : Dashboard) (now : Nat) (res : Response)
    (hrej : res.status < 200 ∨ 300 ≤ res.status) :
    (issueTicket st (axios res) = st ∧ callNext st now (axios res) = st
      ∧ completeService st now (axios res) = st ∧ noShow st now (axios res) = st
      ∧ resetSystem st (axios res) = st)
    ∧ (issueTicket st none = st ∧ callNext st now none = st
      ∧ completeService st now none = st ∧ noShow st now none = st
      ∧ resetSystem st none = st) := by
  have hax : axios res = none := by
    unfold axios
    rw [if_neg]
    omega
  rw [hax]
  have h1 : issueTicket st none = st := rfl
  have h2 : callNext st now none = st := by
    unfold callNext; split <;> rfl
  have h3 : completeService st now none = st := by
    unfold completeService; split <;> rfl
  have h4 : noShow st now none = st := by
    unfold noShow; split <;> rfl
  have h5 : resetSystem st none = st := rfl
  exact ⟨⟨h1, h2, h3, h4, h5⟩, ⟨h1, h2, h3, h4, h5⟩⟩

/-- The dashboard that serves P01, with the response 500 of a `catch` block. -/
theorem rejected_keeps_state_witness :
    (issueTicket servingDashboard (axios { status := 500, body := ResBody.errorMessage })
        = servingDashboard
      ∧ callNext servingDashboard 9 (axios { status := 500, body := ResBody.errorMessage })
        = servingDashboard
      ∧ completeService servingDashboard 9 (axios { status := 500, body := ResBody.errorMessage })
        = servingDashboard
      ∧ noShow servingDashboard 9 (axios { status := 500, body := ResBody.errorMessage })
        = servingDashboard
      ∧ resetSystem servingDashboard (axios { status := 500, body := ResBody.errorMessage })
        = servingDashboard)
    ∧ (issueTicket servingDashboard none = servingDashboard
      ∧ callNext servingDashboard 9 none = servingDashboard
      ∧ completeService servingDashboard 9 none = servingDashboard
      ∧ noShow servingDashboard 9 none = servingDashboard
      ∧ resetSystem servingDashboard none = servingDashboard) :=
  rejected_keeps_state servingDashboard 9 { status := 500, body := ResBody.errorMessage }
    (Or.inr (by decide))

/-- C19 at `sameNumberDashboard`: `callNext` puts ticket 2 into serving and sets
`activeTicket` to its number 1001; `completeService` and `noShow` then look the
ticket up by that number and find ticket 1, whose id goes to the API: in the
store ticket 1 is completed again and ticket 2 stays in serving, while the
local list marks both tickets. -/
theorem completeService_hits_other_ticket :
    (callNext.nextTicket sameNumberDashboard.activeTicket sameNumberDashboard.tickets).map
        (fun t => t._id) = some 2
    ∧ sameNumberCall.1.status = 200
    ∧ sameNumberServing.activeTicket = some "1001"
    ∧ sameNumberServing.tickets.map (fun t => (t._id, t.status))
        = [(1, Status.completed), (2, Status.serving)]
    ∧ (completeService.ticket sameNumberServing).map (fun t => t._id) = some 1
    ∧ (updateTicket sampleParseDate sampleCastObjectId sameNumberCall.2 7 (sampleIdString 1)
        (completeService.body "120")).2.map
        (fun t => (t._id, t.status, t.completedAt))
        = [(1, Status.completed, some 120), (2, Status.serving, none)]
    ∧ (completeService sameNumberServing 120
          (axios (updateTicket sampleParseDate sampleCastObjectId sameNumberCall.2 7
            (sampleIdString 1) (completeService.body "120")).1)).tickets.map
        (fun t => (t._id, t.status, t.completedAt))
        = [(1, Status.completed, some 120), (2, Status.completed, some 120)]
    ∧ (noShow sameNumberServing 120
          (axios (updateTicket sampleParseDate sampleCastObjectId sameNumberCall.2 7
            (sampleIdString 1) (noShow.body "120")).1)).tickets.map
        (fun t => (t._id, t.status, t.noShowAt))
        = [(1, Status.noShow, some 120), (2, Status.noShow, some 120)] := by
  decide

end QueueSystemV2

/-! ## Dates of the transitions -/

namespace QueueSystemV2

open QueueController

theorem mem_save {doc t : Ticket} {store : Store} (h : t ∈ save doc store) :
    t = doc ∨ t ∈ store := by
  induction store with
  | nil => simp [save] at h
  | cons a rest ih =>
    unfold save at h
    split_ifs at h
    · rcases List.mem_cons.1 h with h | h
      · exact Or.inl h
      · exact Or.inr (List.mem_cons_of_mem _ h)
    · rcases List.mem_cons.1 h with h | h
      · exact Or.inr (h ▸ List.mem_cons_self _ _)
      · rcases ih h with h | h
        · exact Or.inl h
        · exact Or.inr (List.mem_cons_of_mem _ h)

/-- A record of the store after an update was in the store before, or is the
document the update saved. -/
theorem mem_updateTicket {parseDate : String → Option Nat}
    {castObjectId : String → Option ObjectId} {store : Store}
    {user : ObjectId} {id : String} {body : UpdateBody} {t : Ticket}
    (h : t ∈ (updateTicket parseDate castObjectId store user id body).2) :
    t ∈ store ∨ ∃ ticket, applyUpdate parseDate ticket body = some t := by
  unfold updateTicket at h
  split at h
  · exact Or.inl h
  · exact Or.inl h
  · split_ifs at h
    · exact Or.inl h
    · split at h
      · rename_i u hu
        rcases mem_save h with h | h
        · exact Or.inr ⟨_, h ▸ hu⟩
        · exact Or.inl h
      · exact Or.inl h

theorem mem_issueTicket {store : Store} {user : ObjectId} {now : Nat} {body : IssueBody}
    {t : Ticket} (h : t ∈ (QueueController.issueTicket store user now body).2) :
    t ∈ store ∨ t.status = Status.waiting := by
  unfold QueueController.issueTicket at h
  split at h
  · rename_i u hu
    rcases List.mem_append.1 h with h | h
    · exact Or.inl h
    · right
      simp only [List.mem_singleton] at h
      subst h
      unfold create at hu
      split at hu
      · split_ifs at hu
        cases hu
        rfl
      · cases hu
  · exact Or.inl h

/-- The documents the three bodies of the dashboard save carry the date of their
status. -/
theorem applyUpdate_dashboard_body {parseDate : String → Option Nat} {date : String}
    (hne : date ≠ "") (hd : (parseDate date).isSome) {ticket t : Ticket} :
    (applyUpdate parseDate ticket (callNext.body date) = some t → MatchingDate t)
    ∧ (applyUpdate parseDate ticket (completeService.body date) = some t → MatchingDate t)
    ∧ (applyUpdate parseDate ticket (noShow.body date) = some t → MatchingDate t) := by
  obtain ⟨d, hd⟩ := Option.isSome_iff_exists.1 hd
  refine ⟨?_, ?_, ?_⟩ <;> intro h
  · simp [applyUpdate, callNext.body, assignStatus, assignDate, truthy, hne, hd,
      Status.ofString?] at h
    subst h
    simp [MatchingDate]
  · simp [applyUpdate, completeService.body, assignStatus, assignDate, truthy, hne, hd,
      Status.ofString?] at h
    subst h
    simp [MatchingDate]
  · simp [applyUpdate, noShow.body, assignStatus, assignDate, truthy, hne, hd,
      Status.ofString?] at h
    subst h
    simp [MatchingDate]

/-- A date path that was set is still set after the assignment of lines 38-40. -/
theorem assignDate_kept {parseDate : String → Option Nat} {d : Option String}
    {prior new : Option Nat} (h : assignDate parseDate d prior = some new)
    (hp : prior ≠ none) : new ≠ none := by
  unfold assignDate at h
  split_ifs at h
  · cases hd : d.bind parseDate with
    | none => simp [hd] at h
    | some v =>
      simp only [hd, Option.map_some', Option.some.injEq] at h
      subst h
      simp
  · cases h
    exact hp

/-- The document an update saves keeps the id and every date that was set. -/
theorem applyUpdate_datesKept {parseDate : String → Option Nat} {ticket u : Ticket}
    {body : UpdateBody} (h : applyUpdate parseDate ticket body = some u) :
    DatesKept ticket u := by
  unfold applyUpdate at h
  split at h
  · rename_i st sa ca na _ hsa hca hna
    cases h
    exact ⟨rfl, assignDate_kept hsa, assignDate_kept hca, assignDate_kept hna⟩
  · cases h

theorem datesKept_refl (l : List Ticket) : List.Forall₂ DatesKept l l :=
  List.forall₂_same.2 (fun _ _ => ⟨rfl, id, id, id⟩)

/-- An update leaves every record in its place, with its id and with every date
that was set still set. -/
theorem updateTicket_datesKept (parseDate : String → Option Nat)
    (castObjectId : String → Option ObjectId) (store : Store) (user : ObjectId) (id : String)
    (body : UpdateBody) :
    List.Forall₂ DatesKept store (updateTicket parseDate castObjectId store user id body).2 := by
  unfold updateTicket
  split
  · exact datesKept_refl store
  · exact datesKept_refl store
  · rename_i ticket hfind
    split_ifs
    · exact datesKept_refl store
    · split
      · rename_i u hu
        obtain ⟨l₁, l₂, hsplit, _, hsave⟩ := save_of_findById hfind
        have hk := applyUpdate_datesKept hu
        rw [hsave u hk.1]
        conv_lhs => rw [hsplit]
        exact List.rel_append (datesKept_refl l₁) (List.Forall₂.cons hk (datesKept_refl l₂))
      · exact datesKept_refl store

theorem flowStore_reachable : Reachable sampleParseDate sampleCastObjectId flowStore :=
  Reachable.completeService _ 7 (sampleIdString 1) "120"
    (Reachable.callNext _ 7 (sampleIdString 1) "110"
      (Reachable.issue [] 7 100 (issueTicket.newTicketData initialDashboard) Reachable.empty)
      (by decide) (by decide))
    (by decide) (by decide)

theorem flowStore_apiReachable : ApiReachable sampleParseDate sampleCastObjectId flowStore :=
  ApiReachable.update _ 7 (sampleIdString 1) (completeService.body "120")
    (ApiReachable.update _ 7 (sampleIdString 1) (callNext.body "110")
      (ApiReachable.issue [] 7 100 (issueTicket.newTicketData initialDashboard)
        ApiReachable.empty))

theorem statusOnlyStore_apiReachable :
    ApiReachable sampleParseDate sampleCastObjectId statusOnlyStore :=
  ApiReachable.update _ 7 (sampleIdString 1) statusOnlyBody
    (ApiReachable.issue [] 7 100 (issueTicket.newTicketData initialDashboard) ApiReachable.empty)

/-- C12, as the claim states it, fails twice. After the dashboard has issued a
ticket, called it and completed it, the ticket is completed and carries
servedAt as well as completedAt: more than one date is set. And the API
reaches stores the dashboard's requests do not: after a `PUT` whose body
supplies the status serving and no date, the ticket is serving with no date at
all, so that through arbitrary requests not even the date of the status is
set. -/
theorem exactlyOneDate_counterexample :
    (ApiReachable sampleParseDate sampleCastObjectId flowStore
      ∧ Reachable sampleParseDate sampleCastObjectId flowStore
      ∧ flowStore.map (fun t => (t.status, t.servedAt, t.completedAt, t.noShowAt))
          = [(Status.completed, some 110, some 120, none)]
      ∧ ¬ (∀ t ∈ flowStore, t.status ≠ Status.waiting → ExactlyOneDate t))
    ∧ (ApiReachable sampleParseDate sampleCastObjectId statusOnlyStore
      ∧ statusOnlyStore.map (fun t => (t.status, t.servedAt, t.completedAt, t.noShowAt))
          = [(Status.serving, none, none, none)]
      ∧ ¬ (∀ t ∈ statusOnlyStore, t.status ≠ Status.waiting → MatchingDate t)) :=
  ⟨⟨flowStore_apiReachable, flowStore_reachable, by decide, by decide⟩,
    ⟨statusOnlyStore_apiReachable, by decide, by decide⟩⟩

/-- C12, amended: in every store reached through the requests of the dashboard's
actions (issue, call-next, complete, no-show, reset), each ticket whose status
is not waiting has the date of its status set: servedAt for serving,
completedAt for completed, noShowAt for no-show. It need not be the only one:
an update leaves every record in its place and every date that was set is
still set after it. -/
theorem reachable_matchingDate (parseDate : String → Option Nat)
    (castObjectId : String → Option ObjectId) (store : Store)
    (h : Reachable parseDate castObjectId store) :
    (∀ t ∈ store, t.status ≠ Status.waiting → MatchingDate t)
    ∧ ∀ (user : ObjectId) (id : String) (body : UpdateBody),
        List.Forall₂ DatesKept store
          (updateTicket parseDate castObjectId store user id body).2 := by
  have key : ∀ t ∈ store, MatchingDate t := by
    induction h with
    | empty => simp
    | issue store user now body _ ih =>
      intro t ht
      rcases mem_issueTicket ht with ht | ht
      · exact ih t ht
      · simp [MatchingDate, ht]
    | callNext store user id date _ hne hd ih =>
      intro t ht
      rcases mem_updateTicket ht with ht | ⟨ticket, hu⟩
      · exact ih t ht
      · exact (applyUpdate_dashboard_body hne hd).1 hu
    | completeService store user id date _ hne hd ih =>
      intro t ht
      rcases mem_updateTicket ht with ht | ⟨ticket, hu⟩
      · exact ih t ht
      · exact (applyUpdate_dashboard_body hne hd).2.1 hu
    | noShow store user id date _ hne hd ih =>
      intro t ht
      rcases mem_updateTicket ht with ht | ⟨ticket, hu⟩
      · exact ih t ht
      · exact (applyUpdate_dashboard_body hne hd).2.2 hu
    | reset store user _ ih =>
      intro t ht
      simp only [resetQueue, List.mem_filter] at ht
      exact ih t ht.1
  exact ⟨fun t ht _ => key t ht,
    fun user id body => updateTicket_datesKept parseDate castObjectId store user id body⟩

/-- The store of the flow issue, call-next, complete. -/
theorem reachable_matchingDate_witness :
    Reachable sampleParseDate sampleCastObjectId flowStore
    ∧ (∀ t ∈ flowStore, t.status ≠ Status.waiting → MatchingDate t)
    ∧ ∀ (user : ObjectId) (id : String) (body : UpdateBody),
        List.Forall₂ DatesKept flowStore
          (updateTicket sampleParseDate sampleCastObjectId flowStore user id body).2 :=
  ⟨flowStore_reachable,
    reachable_matchingDate sampleParseDate sampleCastObjectId flowStore flowStore_reachable⟩

/-! ## Where `completeService` and `noShow` reach the called ticket -/

theorem mem_of_nextTicket {activeTicket : Option String} {tickets : List Ticket} {T : Ticket}
    (h : callNext.nextTicket activeTicket tickets = some T) : T ∈ tickets := by
  unfold callNext.nextTicket at h
  split_ifs at h
  simp only at h
  split at h
  · rename_i u hu
    cases h
    exact List.mem_of_find?_eq_some hu
  · exact List.mem_of_find?_eq_some h

/-- When the number of the called ticket `T` and its id single out the same tickets
of the list, `completeService` and `noShow` send the id of `T` to the API and
change the status of the tickets with that id only. -/
theorem completeService_of_unique_number (st : Dashboard) (now : Nat) (data : ResBody)
    (T : Ticket) (hnext : callNext.nextTicket st.activeTicket st.tickets = some T)
    (hnum : T.number ≠ "")
    (huniq : ∀ t ∈ st.tickets, t.number = T.number ↔ t._id = T._id) :
    (completeService.ticket (callNext st now (some data))).map (fun t => t._id) = some T._id
    ∧ (∀ now' data',
        (completeService (callNext st now (some data)) now' (some data')).tickets
          = st.tickets.map (fun t =>
              if t._id = T._id then
                { t with status := Status.completed, servedAt := some now,
                         completedAt := some now' }
              else t))
    ∧ (∀ now' data',
        (noShow (callNext st now (some data)) now' (some data')).tickets
          = st.tickets.map (fun t =>
              if t._id = T._id then
                { t with status := Status.noShow, servedAt := some now, noShowAt := some now' }
              else t)) := by
  have hT := mem_of_nextTicket hnext
  have hcall : callNext st now (some data) =
      { st with
        tickets := st.tickets.map (fun t =>
          if t._id = T._id then { t with status := Status.serving, servedAt := some now }
          else t),
        activeTicket := some T.number } := by
    simp [callNext, hnext]
  have hfind : ∃ u, completeService.ticket (callNext st now (some data)) = some u
      ∧ u._id = T._id := by
    rw [hcall]
    simp only [completeService.ticket, truthy, hnum, ne_eq, not_false_eq_true, decide_True,
      if_true, List.find?_map]
    cases hf : st.tickets.find? ((fun t : Ticket => decide (some t.number = some T.number)) ∘
        (fun t : Ticket =>
          if t._id = T._id then { t with status := Status.serving, servedAt := some now }
          else t)) with
    | none =>
      exfalso
      rw [List.find?_eq_none] at hf
      have := hf T hT
      simp at this
    | some t =>
      have hp := List.find?_some hf
      have hm := List.mem_of_find?_eq_some hf
      refine ⟨_, rfl, ?_⟩
      by_cases hid : t._id = T._id
      · simp [hid]
      · have hne : ¬ t.number = T.number := fun h => hid ((huniq t hm).1 h)
        simp [hid, hne] at hp
  obtain ⟨u, hu, huid⟩ := hfind
  refine ⟨by rw [hu]; simp [huid], ?_, ?_⟩
  · intro now' data'
    simp only [completeService, hu]
    rw [hcall]
    simp only [List.map_map]
    apply List.map_congr_left
    intro t ht
    by_cases hid : t._id = T._id
    · have hn := (huniq t ht).2 hid
      simp [hid, hn]
    · have hne : ¬ t.number = T.number := fun h => hid ((huniq t ht).1 h)
      simp [hid, hne]
  · intro now' data'
    simp only [noShow, hu]
    rw [hcall]
    simp only [List.map_map]
    apply List.map_congr_left
    intro t ht
    by_cases hid : t._id = T._id
    · have hn := (huniq t ht).2 hid
      simp [hid, hn]
    · have hne : ¬ t.number = T.number := fun h => hid ((huniq t ht).1 h)
      simp [hid, hne]

end QueueSystemV2
